import Mathlib

/-!
Shallow embedding of the srither Slitherlink solver core, together with
theorems checking the natural-language specification against the code.

Sources embedded:
* `src/src/slither/side_map.rs` — the point-keyed `SideMap` over a parity
  union-find (`SideMapInner`, `get_side`, `set_same`, `set_different`, …).
* `src/core/src/geom.rs` — points, sizes, `point_to_cellid`/`cellid_to_point`.
* `src/src/slither/board.rs` — `Board::from_reader` hint parsing.
* `src/srither-solver/src/step/apply_theorem.rs` — `TheoremPool`
  (`counts`/`results`/`index_by_edge`, `update`, `invalidate`, `apply_all`).
* `src/solver/src/step/connect_analysis.rs` — `create_conn_graph`.
* `src/srither-solver/src/solver.rs` — `Solver::mark_common`.

The union-find crate and the solver crates' `model/` directory
(`model/side_map.rs`, `model/connect_map.rs`) are not part of the sources;
where needed they are modelled from the specification, as marked on the
corresponding definitions.
-/

namespace Srither

/-- Modelled from the spec: the union-find structure used by `SideMapInner`
(the `union_find` crate is not under the sources).  Per the spec,
`find(a,b)` returns true iff `a` and `b` are in the same set, and
`union(a,b)` merges the two sets, returning true iff the structure changed.
The state is represented by the canonical-representative assignment `rep`;
union-by-rank and path compression only affect performance, not these two
observable operations. -/
structure UnionFind where
  rep : List Nat
deriving DecidableEq, Repr

/-- `UnionFind::new(n)`: `n` singleton sets. -/
def UnionFind.new (n : Nat) : UnionFind := ⟨List.range n⟩

/-- Representative of node `a` (out-of-range nodes are their own class). -/
def UnionFind.root (uf : UnionFind) (a : Nat) : Nat := uf.rep.getD a a

/-- `find(a,b)`: true iff `a` and `b` are in the same set. -/
def UnionFind.find (uf : UnionFind) (a b : Nat) : Bool :=
  uf.root a == uf.root b

/-- `union(a,b)`: merge the sets of `a` and `b`; the returned flag is true
iff the partition changed (i.e. the two were not already in one set). -/
def UnionFind.union (uf : UnionFind) (a b : Nat) : UnionFind × Bool :=
  let ra := uf.root a
  let rb := uf.root b
  if ra = rb then (uf, false)
  else (⟨uf.rep.map fun r => if r = ra then rb else r⟩, true)

/-! ## Geometry (`src/core/src/geom.rs`)

`Point`, `Size` and `Move` are tuple structs of two `i32`; we embed them as
pairs of integers (`.1` is the row field `0`, `.2` the column field `1`). -/

/-- `Point(pub i32, pub i32)`. -/
abbrev GPoint := Int × Int

/-- `Size(pub i32, pub i32)`. -/
abbrev GSize := Int × Int

/-- `OUTSIDE_POINT: Point = Point(-1, -1)`. -/
def OUTSIDE_POINT : GPoint := (-1, -1)

/-- `OUTSIDE_CELL_ID: CellId = CellId(0)`; cell ids are embedded as `Nat`. -/
def OUTSIDE_CELL_ID : Nat := 0

/-- `Geom::contains`: `0 <= p.0 && p.0 < size.0 && 0 <= p.1 && p.1 < size.1`. -/
def contains (size : GSize) (p : GPoint) : Bool :=
  decide (0 ≤ p.1) && decide (p.1 < size.1) && decide (0 ≤ p.2) && decide (p.2 < size.2)

/-- `Geom::point_to_cellid`: row-major id `p.0 * C + p.1 + 1` for contained
points, `OUTSIDE_CELL_ID` otherwise (the `as usize` cast is `Int.toNat`,
which agrees on the in-range values produced here). -/
def point_to_cellid (size : GSize) (p : GPoint) : Nat :=
  if contains size p then (p.1 * size.2 + p.2 + 1).toNat else OUTSIDE_CELL_ID

/-- `Geom::cellid_to_point`: id 0 is `OUTSIDE_POINT`; otherwise
`idx = id - 1` and the point is `(idx / C, idx % C)` (signed division of
the non-negative `idx as i32`). -/
def cellid_to_point (size : GSize) (id : Nat) : GPoint :=
  if id = OUTSIDE_CELL_ID then OUTSIDE_POINT
  else
    let idx : Int := (id - 1 : Nat)
    (idx / size.2, idx % size.2)

/-- Geometric adjacency of two cell ids: some contained point maps to the
one id and a one-step move from it maps to the other (this covers both
interior edges and border edges toward the outside cell 0). -/
def adjacentCells (size : GSize) (c0 c1 : Nat) : Bool :=
  (List.range size.1.toNat).any fun r =>
    (List.range size.2.toNat).any fun c =>
      let p : GPoint := ((r : Int), (c : Int))
      [((-1 : Int), (0 : Int)), (0, 1), (1, 0), (0, -1)].any fun d =>
        let q : GPoint := (p.1 + d.1, p.2 + d.2)
        (point_to_cellid size p == c0 && point_to_cellid size q == c1) ||
          (point_to_cellid size p == c1 && point_to_cellid size q == c0)

end Srither

namespace Slither

/-! ## `src/src/slither/side_map.rs` -/

open Srither (UnionFind GPoint GSize)

/-- `enum Relation { Same, Different, Unknown, Conflict }`. -/
inductive Relation where
  | Same | Different | Unknown | Conflict
deriving DecidableEq, Repr

/-- `enum Side { In, Out, Unknown, Conflict }`. -/
inductive Side where
  | In | Out | Unknown | Conflict
deriving DecidableEq, Repr

/-- `CellId::key0`: `self.0 * 2`. -/
def key0 (c : Nat) : Nat := c * 2

/-- `CellId::key1`: `self.0 * 2 + 1`. -/
def key1 (c : Nat) : Nat := c * 2 + 1

/-- `struct SideMapInner { uf: UnionFind, revision: u32 }`.  The revision
counter is embedded as `Nat`: it only ever counts structural changes of a
union-find over `2·(R·C+1)` nodes, so its value stays far below `2^32` for
any board the `i32`-based geometry can represent. -/
structure SideMapInner where
  uf : UnionFind
  revision : Nat
deriving DecidableEq, Repr

/-- `SideMapInner::new(size)`: union-find over `size * 2` nodes, revision 0. -/
def SideMapInner.new (size : Nat) : SideMapInner :=
  ⟨UnionFind.new (size * 2), 0⟩

/-- `SideMapInner::is_same`: `uf.find(i.key0(), j.key0())`. -/
def SideMapInner.is_same (inn : SideMapInner) (i j : Nat) : Bool :=
  inn.uf.find (key0 i) (key0 j)

/-- `SideMapInner::is_different`: `uf.find(i.key0(), j.key1())`. -/
def SideMapInner.is_different (inn : SideMapInner) (i j : Nat) : Bool :=
  inn.uf.find (key0 i) (key1 j)

/-- `SideMapInner::set_same`: union both parities; bump revision iff either
union changed the structure; return the changed flag. -/
def SideMapInner.set_same (inn : SideMapInner) (i j : Nat) : SideMapInner × Bool :=
  let u1 := inn.uf.union (key0 i) (key0 j)
  let u2 := u1.1.union (key1 i) (key1 j)
  let changed := u1.2 || u2.2
  (⟨u2.1, if changed then inn.revision + 1 else inn.revision⟩, changed)

/-- `SideMapInner::set_different`: union the crossed parities; bump revision
iff either union changed the structure; return the changed flag. -/
def SideMapInner.set_different (inn : SideMapInner) (i j : Nat) : SideMapInner × Bool :=
  let u1 := inn.uf.union (key0 i) (key1 j)
  let u2 := u1.1.union (key1 i) (key0 j)
  let changed := u1.2 || u2.2
  (⟨u2.1, if changed then inn.revision + 1 else inn.revision⟩, changed)

/-- `struct SideMap { size: Size, inner: SideMapInner }`. -/
structure SideMap where
  size : GSize
  inner : SideMapInner
deriving DecidableEq, Repr

/-- `SideMap::new(size)`: inner map over `size.0 * size.1 + 1` cells (cell 0
is the outside cell).  The source `assert!(size.0 > 0 && size.1 > 0)` is a
precondition carried as a hypothesis by the theorems below. -/
def SideMap.new (size : GSize) : SideMap :=
  ⟨size, SideMapInner.new (size.1 * size.2 + 1).toNat⟩

/-- `SideMap::cell_id`: contained points get `point_to_index(p) + 1`,
everything else the outside cell 0 (same arithmetic as `point_to_cellid`). -/
def SideMap.cell_id (sm : SideMap) (p : GPoint) : Nat :=
  Srither.point_to_cellid sm.size p

/-- `SideMap::is_outside`: probe "same side as the outside cell". -/
def SideMap.is_outside (sm : SideMap) (p : GPoint) : Bool :=
  sm.inner.is_same (sm.cell_id p) Srither.OUTSIDE_CELL_ID

/-- `SideMap::is_inside`: probe "different side from the outside cell". -/
def SideMap.is_inside (sm : SideMap) (p : GPoint) : Bool :=
  sm.inner.is_different (sm.cell_id p) Srither.OUTSIDE_CELL_ID

/-- `SideMap::is_same` on points. -/
def SideMap.is_same (sm : SideMap) (p0 p1 : GPoint) : Bool :=
  sm.inner.is_same (sm.cell_id p0) (sm.cell_id p1)

/-- `SideMap::is_different` on points. -/
def SideMap.is_different (sm : SideMap) (p0 p1 : GPoint) : Bool :=
  sm.inner.is_different (sm.cell_id p0) (sm.cell_id p1)

/-- `SideMap::get_side`: the two probes decide the four-valued side. -/
def SideMap.get_side (sm : SideMap) (p : GPoint) : Side :=
  match sm.is_inside p, sm.is_outside p with
  | false, false => Side.Unknown
  | true, false => Side.In
  | false, true => Side.Out
  | true, true => Side.Conflict

/-- `SideMap::get_relation`: the two probes decide the four-valued relation. -/
def SideMap.get_relation (sm : SideMap) (p0 p1 : GPoint) : Relation :=
  match sm.is_same p0 p1, sm.is_different p0 p1 with
  | false, false => Relation.Unknown
  | true, false => Relation.Same
  | false, true => Relation.Different
  | true, true => Relation.Conflict

/-- `SideMap::set_outside`: union "same" with the outside cell. -/
def SideMap.set_outside (sm : SideMap) (p : GPoint) : SideMap × Bool :=
  let r := sm.inner.set_same (sm.cell_id p) Srither.OUTSIDE_CELL_ID
  (⟨sm.size, r.1⟩, r.2)

/-- `SideMap::set_inside`: union "different" with the outside cell. -/
def SideMap.set_inside (sm : SideMap) (p : GPoint) : SideMap × Bool :=
  let r := sm.inner.set_different (sm.cell_id p) Srither.OUTSIDE_CELL_ID
  (⟨sm.size, r.1⟩, r.2)

/-- `SideMap::set_same` on points. -/
def SideMap.set_same (sm : SideMap) (p0 p1 : GPoint) : SideMap × Bool :=
  let r := sm.inner.set_same (sm.cell_id p0) (sm.cell_id p1)
  (⟨sm.size, r.1⟩, r.2)

/-- `SideMap::set_different` on points. -/
def SideMap.set_different (sm : SideMap) (p0 p1 : GPoint) : SideMap × Bool :=
  let r := sm.inner.set_different (sm.cell_id p0) (sm.cell_id p1)
  (⟨sm.size, r.1⟩, r.2)

/-- `SideMap::set_side`: dispatch on the side; `Unknown` and `Conflict` hit
`panic!()`, embedded as `none`. -/
def SideMap.set_side (sm : SideMap) (p : GPoint) (ty : Side) : Option (SideMap × Bool) :=
  match ty with
  | Side.In => some (sm.set_inside p)
  | Side.Out => some (sm.set_outside p)
  | Side.Unknown => none
  | Side.Conflict => none

/-- `SideMap::set_relation`: dispatch on the relation; `Unknown` and
`Conflict` hit `panic!()`, embedded as `none`. -/
def SideMap.set_relation (sm : SideMap) (p0 p1 : GPoint) (rel : Relation) :
    Option (SideMap × Bool) :=
  match rel with
  | Relation.Same => some (sm.set_same p0 p1)
  | Relation.Different => some (sm.set_different p0 p1)
  | Relation.Unknown => none
  | Relation.Conflict => none

/-- `SideMap::revision`. -/
def SideMap.revision (sm : SideMap) : Nat := sm.inner.revision

/-- The mutating operations of `SideMap` (the getters do not touch the
revision counter; `set_side`/`set_relation` bottom out in these four). -/
inductive SMOp where
  | same (p0 p1 : GPoint)
  | different (p0 p1 : GPoint)
  | inside (p : GPoint)
  | outside (p : GPoint)
deriving DecidableEq, Repr

/-- Run one mutating operation. -/
def SMOp.run (op : SMOp) (sm : SideMap) : SideMap :=
  match op with
  | SMOp.same p0 p1 => (sm.set_same p0 p1).1
  | SMOp.different p0 p1 => (sm.set_different p0 p1).1
  | SMOp.inside p => (sm.set_inside p).1
  | SMOp.outside p => (sm.set_outside p).1

/-- Run a sequence of mutating operations, left to right. -/
def runOps (sm : SideMap) (ops : List SMOp) : SideMap :=
  ops.foldl (fun s op => op.run s) sm

/-- Well-formedness tying the inner union-find to the declared size: exactly
what `SideMap::new` establishes for a positive size. -/
def SideMap.wf (sm : SideMap) : Prop :=
  sm.inner.uf.rep.length = 2 * (sm.size.1 * sm.size.2 + 1).toNat ∧
    0 < sm.size.1 ∧ 0 < sm.size.2

end Slither

namespace Srither

/-! ## srither-solver core types (`srither_core::puzzle`, `solver::State`) -/

/-- `puzzle::Side { In, Out }` of the srither crates (two-valued). -/
inductive PSide where
  | In | Out
deriving DecidableEq, Repr

/-- `puzzle::Edge { Line, Cross }`. -/
inductive Edge where
  | Line | Cross
deriving DecidableEq, Repr

/-- `solver::State<T> = Unknown | Fixed(T) | Conflict`. -/
inductive State (α : Type) where
  | Unknown
  | Fixed (a : α)
  | Conflict
deriving DecidableEq, Repr

/-- `solver::Error` kinds relevant here. -/
inductive SolverError where
  | invalidBoard
deriving DecidableEq, Repr

open Slither (SideMapInner key0 key1)

/-! ## Cell-id keyed SideMap operations

Modelled from the spec: the solver crates' `model/side_map.rs` (not under
the sources) exposes the same parity union-find keyed directly by `CellId`;
`get_side(p)` probes the same/different relations against the outside cell,
`get_edge(p,q)` probes the relation of the pair, `set_edge` maps `Line` to
`set_different` and `Cross` to `set_same`, and `set_side` maps `In` to
`set_inside` (different from outside) and `Out` to `set_outside` (same as
outside).  The state is a `SideMapInner` exactly as in
`src/src/slither/side_map.rs`. -/

/-- Modelled from the spec: `SideMap::get_side` keyed by cell id. -/
def getSideId (inn : SideMapInner) (c : Nat) : State PSide :=
  match inn.is_different c OUTSIDE_CELL_ID, inn.is_same c OUTSIDE_CELL_ID with
  | false, false => State.Unknown
  | true, false => State.Fixed PSide.In
  | false, true => State.Fixed PSide.Out
  | true, true => State.Conflict

/-- Modelled from the spec: `SideMap::get_edge` keyed by cell ids — `Cross`
iff same side, `Line` iff different side. -/
def getEdgeId (inn : SideMapInner) (c0 c1 : Nat) : State Edge :=
  match inn.is_same c0 c1, inn.is_different c0 c1 with
  | false, false => State.Unknown
  | true, false => State.Fixed Edge.Cross
  | false, true => State.Fixed Edge.Line
  | true, true => State.Conflict

/-- Modelled from the spec: `SideMap::set_side` keyed by cell id. -/
def setSideId (inn : SideMapInner) (c : Nat) (s : PSide) : SideMapInner × Bool :=
  match s with
  | PSide.In => inn.set_different c OUTSIDE_CELL_ID
  | PSide.Out => inn.set_same c OUTSIDE_CELL_ID

/-- Modelled from the spec: `SideMap::set_edge` keyed by cell ids. -/
def setEdgeId (inn : SideMapInner) (c0 c1 : Nat) (e : Edge) : SideMapInner × Bool :=
  match e with
  | Edge.Line => inn.set_different c0 c1
  | Edge.Cross => inn.set_same c0 c1

/-- The union-find probe that holds after an edge has been set: `Line` is
the "different" probe, `Cross` the "same" probe. -/
def edgeHolds (inn : SideMapInner) (c0 c1 : Nat) (e : Edge) : Bool :=
  match e with
  | Edge.Line => inn.is_different c0 c1
  | Edge.Cross => inn.is_same c0 c1

/-- The union-find probe that holds after a side has been set: `In` is the
"different from outside" probe, `Out` the "same as outside" probe. -/
def sideHolds (inn : SideMapInner) (c : Nat) (s : PSide) : Bool :=
  match s with
  | PSide.In => inn.is_different c OUTSIDE_CELL_ID
  | PSide.Out => inn.is_same c OUTSIDE_CELL_ID

/-! ## `src/srither-solver/src/step/apply_theorem.rs` — `TheoremPool` -/

/-- `EdgePattern<CellId>` of the theorem model: an edge assertion on a pair
of cell ids.  Modelled from the spec: the pattern's `apply` pushes the edge
into the side map via `set_edge` (the theorem model file of the srither
crates is not under the sources). -/
structure EdgePattern where
  edge : Edge
  points : Nat × Nat
deriving DecidableEq, Repr

/-- `EdgePattern::apply`: `side_map.set_edge(points.0, points.1, edge)`,
discarding the changed flag. -/
def EdgePattern.apply (pat : EdgePattern) (inn : SideMapInner) : SideMapInner :=
  (setEdgeId inn pat.points.1 pat.points.2 pat.edge).1

/-- `struct IndexByEdge { points, expect_line, expect_cross }`. -/
structure IndexByEdge where
  points : Nat × Nat
  expect_line : List Nat
  expect_cross : List Nat
deriving DecidableEq, Repr

/-- `struct TheoremPool { counts, results, index_by_edge }` (the `Rc`
sharing of `results` is ownership bookkeeping with no observable effect). -/
structure TheoremPool where
  counts : List Nat
  results : List (List EdgePattern)
  index_by_edge : List IndexByEdge
deriving DecidableEq, Repr

/-- `TheoremPool::invalidate(i)`: `counts[i] = 0`. -/
def TheoremPool.invalidate (pool : TheoremPool) (i : Nat) : TheoremPool :=
  { pool with counts := pool.counts.set i 0 }

/-- `TheoremPool::update(i, side_map)`: no-op at count 0; at count 1 zero the
count and apply every result pattern; otherwise decrement the count. -/
def TheoremPool.update (pool : TheoremPool) (i : Nat) (inn : SideMapInner) :
    TheoremPool × SideMapInner :=
  match pool.counts.getD i 0 with
  | 0 => (pool, inn)
  | 1 =>
    ({ pool with counts := pool.counts.set i 0 },
      (pool.results.getD i []).foldl (fun s pat => pat.apply s) inn)
  | Nat.succ (Nat.succ n) =>
    ({ pool with counts := pool.counts.set i (n + 1) }, inn)

/-- The action of `apply_all` at one fixed edge: invalidate every theorem in
`inval`, then update every theorem in `upd`, in list order. -/
def TheoremPool.stepFixed (pool : TheoremPool) (inn : SideMapInner)
    (inval upd : List Nat) : TheoremPool × SideMapInner :=
  let pool1 := inval.foldl TheoremPool.invalidate pool
  upd.foldl (fun ps i => ps.1.update i ps.2) (pool1, inn)

/-- The loop body of `TheoremPool::apply_all` over the indexed edges: the
two-pointer in-place compaction of `index_by_edge` is rendered as the
returned list of retained entries (in order).  A `Conflict` edge aborts the
pass with `Error::invalid_board()`. -/
def applyAllAux : List IndexByEdge → TheoremPool → SideMapInner →
    Except SolverError (List IndexByEdge × TheoremPool × SideMapInner)
  | [], pool, inn => Except.ok ([], pool, inn)
  | ibe :: rest, pool, inn =>
    match getEdgeId inn ibe.points.1 ibe.points.2 with
    | State.Fixed Edge.Cross =>
      let r := pool.stepFixed inn ibe.expect_line ibe.expect_cross
      applyAllAux rest r.1 r.2
    | State.Fixed Edge.Line =>
      let r := pool.stepFixed inn ibe.expect_cross ibe.expect_line
      applyAllAux rest r.1 r.2
    | State.Unknown =>
      (applyAllAux rest pool inn).map fun r => (ibe :: r.1, r.2)
    | State.Conflict => Except.error SolverError.invalidBoard

/-- `TheoremPool::apply_all`: run the pass and truncate `index_by_edge` to
the retained entries. -/
def TheoremPool.apply_all (pool : TheoremPool) (inn : SideMapInner) :
    Except SolverError (TheoremPool × SideMapInner) :=
  (applyAllAux pool.index_by_edge pool inn).map fun r =>
    ({ r.2.1 with index_by_edge := r.1 }, r.2.2)

/-! ## `src/srither-solver/src/solver.rs` — `Solver::mark_common` -/

/-- The body of `mark_common`'s first loop: copy a side agreed as `Fixed`
by both branches into the target map. -/
def markCommonSideStep (s0 s1 : SideMapInner) (m : SideMapInner) (i : Nat) :
    SideMapInner :=
  match getSideId s0 i with
  | State.Fixed side =>
    if getSideId s1 i = State.Fixed side then (setSideId m i side).1 else m
  | _ => m

/-- The body of `mark_common`'s edge loops: copy an edge on the id pair
`(i, i + off)` agreed as `Fixed` by both branches into the target map
(`off` is 1 for the second loop and `column` for the third). -/
def markCommonEdgeStep (s0 s1 : SideMapInner) (off : Nat) (m : SideMapInner)
    (i : Nat) : SideMapInner :=
  match getEdgeId s0 i (i + off) with
  | State.Fixed e =>
    if getEdgeId s1 i (i + off) = State.Fixed e then (setEdgeId m i (i + off) e).1
    else m
  | _ => m

/-- `Solver::mark_common`, acting on the side-map states of the parent and
the two hypothetical branches.  `cellLen` is `puzzle.cell_len()` (the
`R·C + 1` table slots including the outside cell 0) and `column` is
`puzzle.column()`; the three loops copy, in this order, agreed fixed sides
per cell id (`0 ≤ i < cell_len`), agreed fixed edges on consecutive-id
pairs `(i, i+1)` (`0 ≤ i < cell_len - 1`), and agreed fixed edges on
column-offset pairs `(i, i+column)` (`0 ≤ i < cell_len - column`). -/
def markCommon (cellLen column : Nat) (parent s0 s1 : SideMapInner) :
    SideMapInner :=
  let m1 := (List.range cellLen).foldl (markCommonSideStep s0 s1) parent
  let m2 := (List.range (cellLen - 1)).foldl (markCommonEdgeStep s0 s1 1) m1
  (List.range (cellLen - column)).foldl (markCommonEdgeStep s0 s1 column) m2

/-! ## `src/solver/src/step/connect_analysis.rs` — `create_conn_graph` -/

/-- One `ConnectMap` record.  Modelled from the spec: each record holds the
representative cell id (`coord`), the region's side, the sum of hints over
the region and the unknown-edge neighbour representatives
(`model/connect_map.rs` is not under the sources). -/
structure Area where
  coord : Nat
  side : State PSide
  sumOfHint : Nat
  unknownEdge : List Nat
deriving DecidableEq, Repr

/-- Modelled from the spec: the `ConnectMap` as observed by
`create_conn_graph` — `cell_len()` table slots and a record per cell id. -/
structure ConnectMap where
  cellLen : Nat
  areas : List Area
deriving DecidableEq, Repr

/-- `ConnectMap::get`. -/
def ConnectMap.get (cm : ConnectMap) (p : Nat) : Area :=
  cm.areas.getD p ⟨p, State.Unknown, 0, []⟩

/-- Models the contract of Rust `slice::binary_search(&x).ok()` on a sorted
slice: some index holding `x` iff `x` occurs (on duplicates any occurrence
may be returned; we take the first). -/
def binSearch (l : List Nat) (x : Nat) : Option Nat :=
  if x ∈ l then some (List.indexOf x l) else none

/-- `create_conn_graph(conn_map, filter_side)`: push the outside cell id
when the filter is not `Out`, then every record that is its own
representative and whose side is not `Fixed(filter_side)`; sort; resolve
the unknown-edge links into the sorted vertex list by binary search. -/
def createConnGraph (cm : ConnectMap) (filterSide : PSide) :
    List Nat × List (List Nat) :=
  let pts0 : List Nat :=
    (if filterSide ≠ PSide.Out then [OUTSIDE_CELL_ID] else []) ++
      (List.range cm.cellLen).filter
        (fun i => (cm.get i).coord == i && (cm.get i).side != State.Fixed filterSide)
  let pts := pts0.insertionSort (· ≤ ·)
  let graph := pts.map fun p => (cm.get p).unknownEdge.filterMap (binSearch pts)
  (pts, graph)

end Srither

namespace Slither

/-! ## `src/src/slither/board.rs` — `Board::from_reader` -/

/-- Hints: `type Hint = Option<u8>`. -/
abbrev Hint := Option Nat

/-- Character classification of `Board::from_reader`: digits `'0'..'3'` are
hints, every other character is no hint. -/
def charToHint (c : Char) : Hint :=
  if c = '0' then some 0
  else if c = '1' then some 1
  else if c = '2' then some 2
  else if c = '3' then some 3
  else none

/-- The board assembled by `Board::from_reader`/`Board::with_data`: its size
and the hint matrix (stored per row; `with_data` receives `mat.concat()`,
whose rows are recoverable because every row has been padded to `column`). -/
structure Board where
  size : Srither.GSize
  hint : List (List Hint)
deriving DecidableEq, Repr

/-- `Board::from_reader`, starting from the list of input lines (each line
as delivered by `lines()` and `trim_matches('\n')`, i.e. without newline
characters): map characters to hints, right-pad every row to the longest
row's length with `None`, and build the board.  The
`assert!(size.0 > 0 && size.1 > 0)` in `Board::with_data` rejects blank
input; the panic is embedded as `none`. -/
def fromLines (lines : List String) : Option Board :=
  let mat := lines.map fun l => l.data.map charToHint
  let column := mat.foldl (fun m row => max m row.length) 0
  let mat2 := mat.map fun row => row ++ List.replicate (column - row.length) none
  let row := mat.length
  if 0 < row ∧ 0 < column then
    some ⟨((row : Int), (column : Int)), mat2⟩
  else none

end Slither

/-! ## Helper lemmas about the union-find model -/

namespace Srither

theorem UnionFind.root_new (n a : Nat) : (UnionFind.new n).root a = a := by
  simp only [UnionFind.new, UnionFind.root, List.getD_eq_getElem?_getD,
    List.getElem?_range']
  rcases Nat.lt_or_ge a n with h | h
  · simp [List.getElem?_range, h]
  · rw [List.getElem?_eq_none] <;> simp [h]

theorem UnionFind.find_new (n a b : Nat) :
    (UnionFind.new n).find a b = (a == b) := by
  simp [UnionFind.find, UnionFind.root_new]

theorem UnionFind.union_length (uf : UnionFind) (a b : Nat) :
    (uf.union a b).1.rep.length = uf.rep.length := by
  unfold UnionFind.union
  by_cases h : uf.root a = uf.root b <;> simp [h]

theorem UnionFind.union_snd_eq (uf : UnionFind) (a b : Nat) :
    (uf.union a b).2 = !uf.find a b := by
  unfold UnionFind.union UnionFind.find
  by_cases h : uf.root a = uf.root b <;> simp [h]

theorem UnionFind.union_of_not_changed (uf : UnionFind) (a b : Nat)
    (h : (uf.union a b).2 = false) : (uf.union a b).1 = uf := by
  unfold UnionFind.union at *
  by_cases hr : uf.root a = uf.root b
  · simp [hr]
  · simp [hr] at h

theorem UnionFind.root_in_range (uf : UnionFind) (a : Nat)
    (h : a < uf.rep.length) : uf.root a = uf.rep[a] := by
  simp [UnionFind.root, List.getD_eq_getElem?_getD, List.getElem?_eq_getElem h]

/-- Monotonicity: a relation between in-range nodes survives any union. -/
theorem UnionFind.find_mono (uf : UnionFind) (a b c d : Nat)
    (ha : a < uf.rep.length) (hb : b < uf.rep.length)
    (h : uf.find a b = true) : ((uf.union c d).1).find a b = true := by
  unfold UnionFind.union
  by_cases hr : uf.root c = uf.root d
  · simpa [hr] using h
  · have ha' : a < (uf.rep.map fun r => if r = uf.root c then uf.root d else r).length := by
      simpa using ha
    have hb' : b < (uf.rep.map fun r => if r = uf.root c then uf.root d else r).length := by
      simpa using hb
    simp only [UnionFind.find, beq_iff_eq] at h ⊢
    rw [UnionFind.root_in_range _ _ ha, UnionFind.root_in_range _ _ hb] at h
    simp only [hr, if_false]
    rw [UnionFind.root_in_range _ _ ha', UnionFind.root_in_range _ _ hb']
    simp [h]

/-- After `union a b`, in-range `a` and `b` are related. -/
theorem UnionFind.find_union_self (uf : UnionFind) (a b : Nat)
    (ha : a < uf.rep.length) (hb : b < uf.rep.length) :
    ((uf.union a b).1).find a b = true := by
  unfold UnionFind.union
  by_cases hr : uf.root a = uf.root b
  · simp [UnionFind.find, hr]
  · have ha' : a < (uf.rep.map fun r => if r = uf.root a then uf.root b else r).length := by
      simpa using ha
    have hb' : b < (uf.rep.map fun r => if r = uf.root a then uf.root b else r).length := by
      simpa using hb
    simp only [hr, if_false, UnionFind.find, beq_iff_eq]
    rw [UnionFind.root_in_range _ _ ha', UnionFind.root_in_range _ _ hb']
    have hra : uf.rep[a] = uf.root a := (UnionFind.root_in_range uf a ha).symm
    have hrb : uf.rep[b] = uf.root b := (UnionFind.root_in_range uf b hb).symm
    simp [hra, hrb, hr]

/-- A changing union on in-range nodes produces a different structure. -/
theorem UnionFind.union_changed_ne (uf : UnionFind) (a b : Nat)
    (ha : a < uf.rep.length) (hb : b < uf.rep.length)
    (h : (uf.union a b).2 = true) : (uf.union a b).1 ≠ uf := by
  intro heq
  have h1 : uf.find a b = false := by
    have := UnionFind.union_snd_eq uf a b
    rw [h] at this
    cases hfb : uf.find a b
    · rfl
    · rw [hfb] at this; simp at this
  have h2 : ((uf.union a b).1).find a b = true :=
    UnionFind.find_union_self uf a b ha hb
  rw [heq, h1] at h2
  exact Bool.false_ne_true h2

/-- Two chained unions change the structure iff either reported a change
(all four nodes in range). -/
theorem UnionFind.union2_changed_iff (uf : UnionFind) (a b c d : Nat)
    (ha : a < uf.rep.length) (hb : b < uf.rep.length)
    (hc : c < uf.rep.length) (hd : d < uf.rep.length) :
    (((uf.union a b).1.union c d).1 ≠ uf ↔
      ((uf.union a b).2 || ((uf.union a b).1.union c d).2) = true) := by
  constructor
  · intro hne
    by_contra hor
    rw [Bool.or_eq_true] at hor
    push_neg at hor
    rcases hor with ⟨h1', h2'⟩
    have h1 : (uf.union a b).2 = false := Bool.eq_false_iff.mpr h1'
    have h2 : ((uf.union a b).1.union c d).2 = false := Bool.eq_false_iff.mpr h2'
    have e1 := UnionFind.union_of_not_changed uf a b h1
    rw [e1] at h2 hne
    have e2 := UnionFind.union_of_not_changed uf c d h2
    exact hne e2
  · intro hor
    rw [Bool.or_eq_true] at hor
    rcases hor with h1 | h2
    · -- the first union changed: its new relation survives the second union
      have hfind0 : uf.find a b = false := by
        have := UnionFind.union_snd_eq uf a b
        rw [h1] at this
        cases hfb : uf.find a b
        · rfl
        · rw [hfb] at this; simp at this
      have hfind1 : ((uf.union a b).1).find a b = true :=
        UnionFind.find_union_self uf a b ha hb
      have ha1 : a < ((uf.union a b).1).rep.length := by
        rw [UnionFind.union_length]; exact ha
      have hb1 : b < ((uf.union a b).1).rep.length := by
        rw [UnionFind.union_length]; exact hb
      have hfind2 : (((uf.union a b).1.union c d).1).find a b = true :=
        UnionFind.find_mono _ a b c d ha1 hb1 hfind1
      intro heq
      rw [heq, hfind0] at hfind2
      exact Bool.false_ne_true hfind2
    · by_cases h1 : (uf.union a b).2 = true
      · -- same argument as before, independent of the second flag
        have hfind0 : uf.find a b = false := by
          have := UnionFind.union_snd_eq uf a b
          rw [h1] at this
          cases hfb : uf.find a b
          · rfl
          · rw [hfb] at this; simp at this
        have hfind1 : ((uf.union a b).1).find a b = true :=
          UnionFind.find_union_self uf a b ha hb
        have ha1 : a < ((uf.union a b).1).rep.length := by
          rw [UnionFind.union_length]; exact ha
        have hb1 : b < ((uf.union a b).1).rep.length := by
          rw [UnionFind.union_length]; exact hb
        have hfind2 : (((uf.union a b).1.union c d).1).find a b = true :=
          UnionFind.find_mono _ a b c d ha1 hb1 hfind1
        intro heq
        rw [heq, hfind0] at hfind2
        exact Bool.false_ne_true hfind2
      · rw [Bool.not_eq_true] at h1
        have e1 := UnionFind.union_of_not_changed uf a b h1
        rw [e1] at h2 ⊢
        have hc' : c < uf.rep.length := hc
        have hd' : d < uf.rep.length := hd
        have := UnionFind.union_changed_ne uf c d hc' hd' h2
        exact this

end Srither

namespace Slither

/-! ## Helper lemmas about `SideMapInner` -/

theorem SideMapInner.set_same_uf_length (inn : SideMapInner) (i j : Nat) :
    ((inn.set_same i j).1).uf.rep.length = inn.uf.rep.length := by
  simp [SideMapInner.set_same, Srither.UnionFind.union_length]

theorem SideMapInner.set_different_uf_length (inn : SideMapInner) (i j : Nat) :
    ((inn.set_different i j).1).uf.rep.length = inn.uf.rep.length := by
  simp [SideMapInner.set_different, Srither.UnionFind.union_length]

theorem SideMapInner.set_same_revision (inn : SideMapInner) (i j : Nat) :
    ((inn.set_same i j).1).revision =
      (if (inn.set_same i j).2 then inn.revision + 1 else inn.revision) := rfl

theorem SideMapInner.set_different_revision (inn : SideMapInner) (i j : Nat) :
    ((inn.set_different i j).1).revision =
      (if (inn.set_different i j).2 then inn.revision + 1 else inn.revision) := rfl

theorem SideMapInner.set_same_changed_iff (inn : SideMapInner) (i j : Nat)
    (hi : key1 i < inn.uf.rep.length) (hj : key1 j < inn.uf.rep.length) :
    ((inn.set_same i j).2 = true ↔ ((inn.set_same i j).1).uf ≠ inn.uf) := by
  have hi0 : key0 i < inn.uf.rep.length := by
    simp only [key0, key1] at *; omega
  have hj0 : key0 j < inn.uf.rep.length := by
    simp only [key0, key1] at *; omega
  have := Srither.UnionFind.union2_changed_iff inn.uf (key0 i) (key0 j)
    (key1 i) (key1 j) hi0 hj0 hi hj
  simp only [SideMapInner.set_same]
  exact this.symm

theorem SideMapInner.set_different_changed_iff (inn : SideMapInner) (i j : Nat)
    (hi : key1 i < inn.uf.rep.length) (hj : key1 j < inn.uf.rep.length) :
    ((inn.set_different i j).2 = true ↔ ((inn.set_different i j).1).uf ≠ inn.uf) := by
  have hi0 : key0 i < inn.uf.rep.length := by
    simp only [key0, key1] at *; omega
  have hj0 : key0 j < inn.uf.rep.length := by
    simp only [key0, key1] at *; omega
  have := Srither.UnionFind.union2_changed_iff inn.uf (key0 i) (key1 j)
    (key1 i) (key0 j) hi0 hj hi hj0
  simp only [SideMapInner.set_different]
  exact this.symm

theorem SideMapInner.set_same_revision_le (inn : SideMapInner) (i j : Nat) :
    inn.revision ≤ ((inn.set_same i j).1).revision := by
  rw [SideMapInner.set_same_revision]
  by_cases h : (inn.set_same i j).2 <;> simp [h]

theorem SideMapInner.set_different_revision_le (inn : SideMapInner) (i j : Nat) :
    inn.revision ≤ ((inn.set_different i j).1).revision := by
  rw [SideMapInner.set_different_revision]
  by_cases h : (inn.set_different i j).2 <;> simp [h]

end Slither

/-! ## Claim theorems: C1, C2, C10 -/

/-- **C1**: for every point `p`, `SideMap::get_side(p)` is decided by the two
union-find probes against the outside cell exactly as the spec's table says:
same-and-not-different ⇒ `Out`, different-and-not-same ⇒ `In`, neither ⇒
`Unknown`, both ⇒ `Conflict`.  In particular `Conflict` can only surface at
this lookup — the set operations (`set_same`/`set_different` below) return
only a changed flag and never report a conflict. -/
theorem claim1_get_side_probe_table (sm : Slither.SideMap) (p : Srither.GPoint) :
    (sm.get_side p = Slither.Side.Out ↔
      sm.inner.is_same (sm.cell_id p) Srither.OUTSIDE_CELL_ID = true ∧
        sm.inner.is_different (sm.cell_id p) Srither.OUTSIDE_CELL_ID = false) ∧
    (sm.get_side p = Slither.Side.In ↔
      sm.inner.is_different (sm.cell_id p) Srither.OUTSIDE_CELL_ID = true ∧
        sm.inner.is_same (sm.cell_id p) Srither.OUTSIDE_CELL_ID = false) ∧
    (sm.get_side p = Slither.Side.Unknown ↔
      sm.inner.is_same (sm.cell_id p) Srither.OUTSIDE_CELL_ID = false ∧
        sm.inner.is_different (sm.cell_id p) Srither.OUTSIDE_CELL_ID = false) ∧
    (sm.get_side p = Slither.Side.Conflict ↔
      sm.inner.is_same (sm.cell_id p) Srither.OUTSIDE_CELL_ID = true ∧
        sm.inner.is_different (sm.cell_id p) Srither.OUTSIDE_CELL_ID = true) := by
  cases hin : sm.inner.is_different (sm.cell_id p) Srither.OUTSIDE_CELL_ID <;>
    cases hout : sm.inner.is_same (sm.cell_id p) Srither.OUTSIDE_CELL_ID <;>
      simp [Slither.SideMap.get_side, Slither.SideMap.is_inside,
        Slither.SideMap.is_outside, hin, hout]

/-- **C2**: immediately after `SideMap::new(size)` with positive rows and
columns, every point outside the grid reads `Out` and every point inside the
grid reads `Unknown`. -/
theorem claim2_new_get_side (size : Srither.GSize) (p : Srither.GPoint)
    (hr : 0 < size.1) (hc : 0 < size.2) :
    (Srither.contains size p = false →
      (Slither.SideMap.new size).get_side p = Slither.Side.Out) ∧
    (Srither.contains size p = true →
      (Slither.SideMap.new size).get_side p = Slither.Side.Unknown) := by
  have hsame : ∀ c : Nat,
      (Slither.SideMap.new size).inner.is_same c Srither.OUTSIDE_CELL_ID = (c * 2 == 0) := by
    intro c
    simp [Slither.SideMap.new, Slither.SideMapInner.new, Slither.SideMapInner.is_same,
      Slither.key0, Srither.UnionFind.find_new, Srither.OUTSIDE_CELL_ID]
  have hdiff : ∀ c : Nat,
      (Slither.SideMap.new size).inner.is_different c Srither.OUTSIDE_CELL_ID
        = (c * 2 == 1) := by
    intro c
    simp [Slither.SideMap.new, Slither.SideMapInner.new, Slither.SideMapInner.is_different,
      Slither.key0, Slither.key1, Srither.UnionFind.find_new, Srither.OUTSIDE_CELL_ID]
  constructor
  · intro hcont
    have hcell : (Slither.SideMap.new size).cell_id p = 0 := by
      simp [Slither.SideMap.new, Slither.SideMap.cell_id, Srither.point_to_cellid,
        hcont, Srither.OUTSIDE_CELL_ID]
    simp only [Slither.SideMap.get_side, Slither.SideMap.is_inside,
      Slither.SideMap.is_outside, hsame, hdiff, hcell]
    decide
  · intro hcont
    have hge : 1 ≤ (p.1 * size.2 + p.2 + 1).toNat := by
      simp only [Srither.contains, Bool.and_eq_true, decide_eq_true_eq] at hcont
      obtain ⟨⟨⟨h1, h2⟩, h3⟩, h4⟩ := hcont
      have hm : 0 ≤ p.1 * size.2 := mul_nonneg h1 (le_of_lt (lt_of_le_of_lt h3 h4))
      omega
    have hcell : (Slither.SideMap.new size).cell_id p = (p.1 * size.2 + p.2 + 1).toNat := by
      simp [Slither.SideMap.new, Slither.SideMap.cell_id, Srither.point_to_cellid, hcont]
    have hne : ((p.1 * size.2 + p.2 + 1).toNat * 2 == 0) = false := by
      simp only [beq_eq_false_iff_ne, ne_eq]; omega
    have hne1 : ((p.1 * size.2 + p.2 + 1).toNat * 2 == 1) = false := by
      simp only [beq_eq_false_iff_ne, ne_eq]; omega
    simp only [Slither.SideMap.get_side, Slither.SideMap.is_inside,
      Slither.SideMap.is_outside, hsame, hdiff, hcell, hne, hne1]

/-- Witness for C2 at `size = (2, 3)`: the sentinel point `(-1,-1)` is `Out`
and the interior point `(1, 2)` is `Unknown`. -/
theorem claim2_new_get_side_witness :
    (Slither.SideMap.new ((2 : Int), (3 : Int))).get_side (-1, -1) = Slither.Side.Out ∧
    (Slither.SideMap.new ((2 : Int), (3 : Int))).get_side (1, 2) = Slither.Side.Unknown :=
  ⟨(claim2_new_get_side (2, 3) (-1, -1) (by decide) (by decide)).1 (by decide),
    (claim2_new_get_side (2, 3) (1, 2) (by decide) (by decide)).2 (by decide)⟩

/-- **C10**: `set_side` and `set_relation` panic (embedded: return `none`)
exactly on the indeterminate values `Unknown`/`Conflict`, and on determinate
values dispatch to the corresponding set operation. -/
theorem claim10_set_side_set_relation_dispatch (sm : Slither.SideMap)
    (p p0 p1 : Srither.GPoint) :
    sm.set_side p Slither.Side.Unknown = none ∧
    sm.set_side p Slither.Side.Conflict = none ∧
    sm.set_side p Slither.Side.In = some (sm.set_inside p) ∧
    sm.set_side p Slither.Side.Out = some (sm.set_outside p) ∧
    sm.set_relation p0 p1 Slither.Relation.Unknown = none ∧
    sm.set_relation p0 p1 Slither.Relation.Conflict = none ∧
    sm.set_relation p0 p1 Slither.Relation.Same = some (sm.set_same p0 p1) ∧
    sm.set_relation p0 p1 Slither.Relation.Different = some (sm.set_different p0 p1) :=
  ⟨rfl, rfl, rfl, rfl, rfl, rfl, rfl, rfl⟩

namespace Slither

open Srither (GPoint GSize)

/-- Any cell id produced by `cell_id` is within the `R·C + 1` table slots of
a well-formed map. -/
theorem SideMap.cell_id_lt (sm : SideMap) (p : GPoint) (h : sm.wf) :
    sm.cell_id p < (sm.size.1 * sm.size.2 + 1).toNat := by
  obtain ⟨_, hr, hc⟩ := h
  have hrc : 0 < sm.size.1 * sm.size.2 := mul_pos hr hc
  unfold SideMap.cell_id Srither.point_to_cellid
  by_cases hcont : Srither.contains sm.size p = true
  · simp only [hcont, if_true]
    simp only [Srither.contains, Bool.and_eq_true, decide_eq_true_eq] at hcont
    obtain ⟨⟨⟨h1, h2⟩, h3⟩, h4⟩ := hcont
    have hmul : p.1 * sm.size.2 ≤ (sm.size.1 - 1) * sm.size.2 :=
      mul_le_mul_of_nonneg_right (by omega) (le_of_lt hc)
    have hexp : (sm.size.1 - 1) * sm.size.2 = sm.size.1 * sm.size.2 - sm.size.2 := by
      ring
    omega
  · have hf : Srither.contains sm.size p = false := Bool.eq_false_iff.mpr hcont
    simp only [hf, Bool.false_eq_true, if_false, Srither.OUTSIDE_CELL_ID]
    omega

/-- The odd parity key of any `cell_id` is in range for a well-formed map. -/
theorem SideMap.key1_cell_id_lt (sm : SideMap) (p : GPoint) (h : sm.wf) :
    key1 (sm.cell_id p) < sm.inner.uf.rep.length := by
  have := sm.cell_id_lt p h
  obtain ⟨hlen, _, _⟩ := h
  simp only [key1]
  omega

/-- Each mutating operation leaves the revision counter no smaller. -/
theorem SMOp.run_revision_le (op : SMOp) (sm : SideMap) :
    sm.revision ≤ (op.run sm).revision := by
  cases op with
  | same p0 p1 => exact SideMapInner.set_same_revision_le sm.inner _ _
  | different p0 p1 => exact SideMapInner.set_different_revision_le sm.inner _ _
  | inside p => exact SideMapInner.set_different_revision_le sm.inner _ _
  | outside p => exact SideMapInner.set_same_revision_le sm.inner _ _

/-- The revision counter never decreases along a sequence of operations. -/
theorem runOps_revision_le (sm : SideMap) (ops : List SMOp) :
    sm.revision ≤ (runOps sm ops).revision := by
  induction ops generalizing sm with
  | nil => exact le_refl _
  | cons op rest ih =>
    calc sm.revision ≤ (op.run sm).revision := op.run_revision_le sm
      _ ≤ (runOps (op.run sm) rest).revision := ih (op.run sm)
      _ = (runOps sm (op :: rest)).revision := rfl

end Slither

/-- **C3**: `set_same`/`set_different` return true iff the underlying
union-find structure changed; the revision counter is bumped exactly when
they return true; and the revision is monotonically non-decreasing over any
sequence of mutating SideMap operations. -/
theorem claim3_set_changed_and_revision (sm : Slither.SideMap)
    (p q : Srither.GPoint) (h : sm.wf) :
    ((sm.set_same p q).2 = true ↔ (sm.set_same p q).1.inner.uf ≠ sm.inner.uf) ∧
    ((sm.set_same p q).1.revision =
      if (sm.set_same p q).2 then sm.revision + 1 else sm.revision) ∧
    ((sm.set_different p q).2 = true ↔
      (sm.set_different p q).1.inner.uf ≠ sm.inner.uf) ∧
    ((sm.set_different p q).1.revision =
      if (sm.set_different p q).2 then sm.revision + 1 else sm.revision) ∧
    (∀ ops : List Slither.SMOp, sm.revision ≤ (Slither.runOps sm ops).revision) := by
  have hp := sm.key1_cell_id_lt p h
  have hq := sm.key1_cell_id_lt q h
  refine ⟨?_, ?_, ?_, ?_, Slither.runOps_revision_le sm⟩
  · exact Slither.SideMapInner.set_same_changed_iff sm.inner _ _ hp hq
  · exact Slither.SideMapInner.set_same_revision sm.inner _ _
  · exact Slither.SideMapInner.set_different_changed_iff sm.inner _ _ hp hq
  · exact Slither.SideMapInner.set_different_revision sm.inner _ _

/-- Witness for C3 on a fresh 2×2 map at points `(0,0)`, `(0,1)`: the
revision-bump equation holds there. -/
theorem claim3_set_changed_and_revision_witness :
    ((Slither.SideMap.new ((2 : Int), (2 : Int))).set_same (0, 0) (0, 1)).1.revision =
      if ((Slither.SideMap.new ((2 : Int), (2 : Int))).set_same (0, 0) (0, 1)).2
      then (Slither.SideMap.new ((2 : Int), (2 : Int))).revision + 1
      else (Slither.SideMap.new ((2 : Int), (2 : Int))).revision :=
  (claim3_set_changed_and_revision (Slither.SideMap.new (2, 2)) (0, 0) (0, 1)
    (by constructor <;> simp [Slither.SideMap.new, Slither.SideMapInner.new,
      Srither.UnionFind.new])).2.1

/-- **C9**: the point/cell-id conversions round-trip — contained points
through `point_to_cellid` then `cellid_to_point` come back unchanged, ids
`1 ≤ n ≤ R·C` likewise, and the outside cell 0 corresponds to the sentinel
point `(-1,-1)`. -/
theorem claim9_point_cellid_roundtrip (size : Srither.GSize) (p : Srither.GPoint)
    (n : Nat) (hr : 0 < size.1) (hc : 0 < size.2) :
    (Srither.contains size p = true →
      Srither.cellid_to_point size (Srither.point_to_cellid size p) = p) ∧
    (1 ≤ n → n ≤ (size.1 * size.2).toNat →
      Srither.point_to_cellid size (Srither.cellid_to_point size n) = n) ∧
    Srither.point_to_cellid size Srither.OUTSIDE_POINT = Srither.OUTSIDE_CELL_ID ∧
    Srither.cellid_to_point size Srither.OUTSIDE_CELL_ID = Srither.OUTSIDE_POINT := by
  refine ⟨?_, ?_, ?_, ?_⟩
  · intro hcont
    simp only [Srither.contains, Bool.and_eq_true, decide_eq_true_eq] at hcont
    obtain ⟨⟨⟨h1, h2⟩, h3⟩, h4⟩ := hcont
    have hmul : 0 ≤ p.1 * size.2 := mul_nonneg h1 (le_of_lt hc)
    have hid : Srither.point_to_cellid size p = (p.1 * size.2 + p.2 + 1).toNat := by
      simp [Srither.point_to_cellid, Srither.contains, h1, h2, h3, h4]
    have hne : (p.1 * size.2 + p.2 + 1).toNat ≠ 0 := by omega
    have hidx : (((p.1 * size.2 + p.2 + 1).toNat - 1 : Nat) : Int) =
        p.2 + p.1 * size.2 := by omega
    unfold Srither.cellid_to_point
    rw [hid]
    simp only [Srither.OUTSIDE_CELL_ID, hne, if_false, hidx]
    have hdiv : (p.2 + p.1 * size.2) / size.2 = p.1 := by
      rw [Int.add_mul_ediv_right _ _ (ne_of_gt hc),
        Int.ediv_eq_zero_of_lt h3 h4]
      omega
    have hmod : (p.2 + p.1 * size.2) % size.2 = p.2 := by
      rw [Int.add_mul_emod_self, Int.emod_eq_of_lt h3 h4]
    rw [hdiv, hmod]
  · intro hn1 hn2
    have hne : n ≠ Srither.OUTSIDE_CELL_ID := by
      simp only [Srither.OUTSIDE_CELL_ID]; omega
    unfold Srither.cellid_to_point
    simp only [hne, if_false]
    have hidx0 : (0 : Int) ≤ ((n - 1 : Nat) : Int) := Int.natCast_nonneg _
    have hidxlt : ((n - 1 : Nat) : Int) < size.1 * size.2 := by omega
    have hq1 : (0 : Int) ≤ ((n - 1 : Nat) : Int) / size.2 :=
      Int.ediv_nonneg hidx0 (le_of_lt hc)
    have hq2 : ((n - 1 : Nat) : Int) / size.2 < size.1 := by
      rw [Int.ediv_lt_iff_lt_mul hc]
      calc ((n - 1 : Nat) : Int) < size.1 * size.2 := hidxlt
        _ = size.1 * size.2 := rfl
    have hm1 : (0 : Int) ≤ ((n - 1 : Nat) : Int) % size.2 :=
      Int.emod_nonneg _ (ne_of_gt hc)
    have hm2 : ((n - 1 : Nat) : Int) % size.2 < size.2 :=
      Int.emod_lt_of_pos _ hc
    have hcont : Srither.contains size
        (((n - 1 : Nat) : Int) / size.2, ((n - 1 : Nat) : Int) % size.2) = true := by
      simp only [Srither.contains, Bool.and_eq_true, decide_eq_true_eq]
      exact ⟨⟨⟨hq1, hq2⟩, hm1⟩, hm2⟩
    unfold Srither.point_to_cellid
    rw [hcont]
    simp only [if_true]
    have hsum : ((n - 1 : Nat) : Int) / size.2 * size.2 +
        ((n - 1 : Nat) : Int) % size.2 + 1 = ((n - 1 : Nat) : Int) + 1 := by
      have := Int.ediv_add_emod ((n - 1 : Nat) : Int) size.2
      linarith [this]
    rw [hsum]
    omega
  · simp [Srither.point_to_cellid, Srither.contains, Srither.OUTSIDE_POINT,
      Srither.OUTSIDE_CELL_ID]
  · rfl

/-- Witness for C9 at `size = (2,3)`, `p = (1,1)`, `n = 4`. -/
theorem claim9_point_cellid_roundtrip_witness :
    Srither.cellid_to_point ((2 : Int), (3 : Int))
        (Srither.point_to_cellid (2, 3) (1, 1)) = (1, 1) ∧
    Srither.point_to_cellid ((2 : Int), (3 : Int))
        (Srither.cellid_to_point (2, 3) 4) = 4 :=
  ⟨(claim9_point_cellid_roundtrip (2, 3) (1, 1) 4 (by decide) (by decide)).1 (by decide),
    (claim9_point_cellid_roundtrip (2, 3) (1, 1) 4 (by decide)
      (by decide)).2.1 (by decide) (by decide)⟩

/-! ## Helper lemmas for `Board::from_reader` -/

namespace Slither

theorem foldl_max_init_le (init : Nat) (l : List (List Hint)) :
    init ≤ l.foldl (fun m row => max m row.length) init := by
  induction l generalizing init with
  | nil => exact le_refl _
  | cons a t ih =>
    calc init ≤ max init a.length := le_max_left _ _
      _ ≤ t.foldl (fun m row => max m row.length) (max init a.length) :=
        ih (max init a.length)

theorem length_le_foldl_max (l : List (List Hint)) (row : List Hint)
    (h : row ∈ l) (init : Nat) :
    row.length ≤ l.foldl (fun m r => max m r.length) init := by
  induction l generalizing init with
  | nil => cases h
  | cons a t ih =>
    rcases List.mem_cons.mp h with heq | hmem
    · subst heq
      calc row.length ≤ max init row.length := le_max_right _ _
        _ ≤ t.foldl (fun m r => max m r.length) (max init row.length) :=
          foldl_max_init_le _ t
    · exact ih hmem _

theorem foldl_max_zero_of_all_zero (l : List (List Hint))
    (h : ∀ row ∈ l, row.length = 0) :
    l.foldl (fun m r => max m r.length) 0 = 0 := by
  induction l with
  | nil => rfl
  | cons a t ih =>
    have ha : a.length = 0 := h a (List.mem_cons_self _ _)
    have ht : ∀ row ∈ t, row.length = 0 := fun row hr => h row (List.mem_cons_of_mem _ hr)
    simpa [ha] using ih ht

end Slither

/-- **C8**: `Board::from_reader` yields no board exactly for blank input
(no lines, or only empty lines — the `with_data` size assertion fires), and
on non-blank input the produced board is rectangular: its size is
(line count, longest line length) and every hint row is the parsed line
right-padded with absent hints to the longest line's length. -/
theorem claim8_from_reader_blank_and_padding (lines : List String) (b : Slither.Board) :
    (Slither.fromLines lines = none ↔ lines = [] ∨ ∀ l ∈ lines, l.length = 0) ∧
    (Slither.fromLines lines = some b →
      0 < (lines.map fun l => l.data.map Slither.charToHint).foldl
          (fun m row => max m row.length) 0 ∧
      b.size = ((lines.length : Int),
        (((lines.map fun l => l.data.map Slither.charToHint).foldl
          (fun m row => max m row.length) 0 : Nat) : Int)) ∧
      (∀ r ∈ b.hint, r.length = (lines.map fun l => l.data.map Slither.charToHint).foldl
          (fun m row => max m row.length) 0) ∧
      b.hint = lines.map fun l => l.data.map Slither.charToHint ++
        List.replicate
          (((lines.map fun l => l.data.map Slither.charToHint).foldl
            (fun m row => max m row.length) 0) - l.data.length) none) := by
  have hlenmap : ∀ l : String, (l.data.map Slither.charToHint).length = l.length := by
    intro l
    rw [List.length_map]
    rfl
  constructor
  · unfold Slither.fromLines
    by_cases hpos : 0 < (lines.map fun l => l.data.map Slither.charToHint).length ∧
        0 < (lines.map fun l => l.data.map Slither.charToHint).foldl
          (fun m row => max m row.length) 0
    · rw [if_pos hpos]
      constructor
      · intro hcontra
        exact (Option.some_ne_none _ hcontra).elim
      · intro hblank
        exfalso
        rcases hblank with hnil | hall
        · subst hnil
          exact absurd hpos.1 (by simp)
        · have hz := Slither.foldl_max_zero_of_all_zero
            (lines.map fun l => l.data.map Slither.charToHint) ?_
          · rw [hz] at hpos
            exact absurd hpos.2 (by simp)
          · intro row hrow
            rcases List.mem_map.mp hrow with ⟨l, hl, hmap⟩
            rw [← hmap, hlenmap l]
            exact hall l hl
    · rw [if_neg hpos]
      constructor
      · intro _
        by_cases hnil : lines = []
        · exact Or.inl hnil
        · refine Or.inr fun l hl => ?_
          push_neg at hpos
          have hne : 0 < (lines.map fun l => l.data.map Slither.charToHint).length := by
            simp [List.length_pos, hnil]
          have hcol := hpos hne
          have hle := Slither.length_le_foldl_max
            (lines.map fun l => l.data.map Slither.charToHint)
            (l.data.map Slither.charToHint) (List.mem_map_of_mem _ hl) 0
          rw [hlenmap l] at hle
          omega
      · intro _
        rfl
  · intro hsome
    unfold Slither.fromLines at hsome
    by_cases hpos : 0 < (lines.map fun l => l.data.map Slither.charToHint).length ∧
        0 < (lines.map fun l => l.data.map Slither.charToHint).foldl
          (fun m row => max m row.length) 0
    · rw [if_pos hpos] at hsome
      have hb : b = ⟨(((lines.map fun l => l.data.map Slither.charToHint).length : Int),
          (((lines.map fun l => l.data.map Slither.charToHint).foldl
            (fun m row => max m row.length) 0 : Nat) : Int)),
          (lines.map fun l => l.data.map Slither.charToHint).map fun row =>
            row ++ List.replicate
              ((lines.map fun l => l.data.map Slither.charToHint).foldl
                (fun m row => max m row.length) 0 - row.length) none⟩ :=
        (Option.some_inj.mp hsome).symm
      subst hb
      refine ⟨hpos.2, by simp, ?_, ?_⟩
      · intro r hr
        rcases List.mem_map.mp hr with ⟨row, hrowmem, hmap⟩
        rw [← hmap]
        have hle := Slither.length_le_foldl_max
          (lines.map fun l => l.data.map Slither.charToHint) row hrowmem 0
        simp only [List.length_append, List.length_replicate]
        omega
      · simp only [List.map_map]
        refine List.map_congr_left fun l hl => ?_
        simp only [Function.comp_apply]
        rw [hlenmap l]
        have : l.length = l.data.length := rfl
        rw [this]
    · rw [if_neg hpos] at hsome
      cases hsome

/-- Witness for C8: parsing the two lines `"31"` and `""` pads the second
line to two absent hints. -/
theorem claim8_from_reader_witness :
    (⟨((2 : Int), (2 : Int)), [[some 3, some 1], [none, none]]⟩ : Slither.Board).hint =
      ["31", ""].map (fun l => l.data.map Slither.charToHint ++
        List.replicate
          (((["31", ""].map fun l => l.data.map Slither.charToHint).foldl
            (fun m row => max m row.length) 0) - l.data.length) none) :=
  ((claim8_from_reader_blank_and_padding ["31", ""]
    ⟨(2, 2), [[some 3, some 1], [none, none]]⟩).2 (by decide)).2.2.2

/-! ## Helper lemmas for `TheoremPool` -/

theorem listGetD_set_nat (l : List Nat) (i v j : Nat) :
    (l.set i v).getD j 0 = if i = j ∧ i < l.length then v else l.getD j 0 := by
  simp only [List.getD_eq_getElem?_getD, List.getElem?_set]
  by_cases hij : i = j
  · subst hij
    by_cases hlt : i < l.length
    · simp [hlt]
    · simp only [hlt, if_true, if_false, and_false, ite_self]
      rw [List.getElem?_eq_none (Nat.le_of_not_lt hlt)]
  · simp [hij]

theorem listGetD_zero_of_le_length (l : List Nat) (j : Nat) (h : l.length ≤ j) :
    l.getD j 0 = 0 := by
  simp [List.getD_eq_getElem?_getD, List.getElem?_eq_none h]

namespace Srither

theorem TheoremPool.invalidate_counts_le (pool : TheoremPool) (i j : Nat) :
    (pool.invalidate i).counts.getD j 0 ≤ pool.counts.getD j 0 := by
  simp only [TheoremPool.invalidate]
  rw [listGetD_set_nat]
  by_cases hc : i = j ∧ i < pool.counts.length
  · rw [if_pos hc]
    exact Nat.zero_le _
  · rw [if_neg hc]

theorem TheoremPool.invalidate_counts_self (pool : TheoremPool) (i : Nat) :
    (pool.invalidate i).counts.getD i 0 = 0 := by
  simp only [TheoremPool.invalidate]
  rw [listGetD_set_nat]
  by_cases hlt : i < pool.counts.length
  · simp [hlt]
  · simp only [and_true, hlt, and_false, if_false]
    exact listGetD_zero_of_le_length _ _ (Nat.le_of_not_lt hlt)

theorem TheoremPool.update_counts_le (pool : TheoremPool) (i : Nat)
    (inn : Slither.SideMapInner) (j : Nat) :
    ((pool.update i inn).1).counts.getD j 0 ≤ pool.counts.getD j 0 := by
  unfold TheoremPool.update
  split
  · exact le_refl _
  · rw [listGetD_set_nat]
    by_cases hij : i = j ∧ i < pool.counts.length
    · rw [if_pos hij]
      exact Nat.zero_le _
    · rw [if_neg hij]
  · next n heq =>
    rw [listGetD_set_nat]
    by_cases hij : i = j ∧ i < pool.counts.length
    · rw [if_pos hij]
      rw [hij.1] at heq
      rw [heq]
      omega
    · rw [if_neg hij]

theorem TheoremPool.foldl_invalidate_counts_le (L : List Nat)
    (pool : TheoremPool) (j : Nat) :
    ((L.foldl TheoremPool.invalidate pool).counts.getD j 0) ≤ pool.counts.getD j 0 := by
  induction L generalizing pool with
  | nil => exact le_refl _
  | cons a t ih =>
    calc ((t.foldl TheoremPool.invalidate (pool.invalidate a)).counts.getD j 0)
        ≤ (pool.invalidate a).counts.getD j 0 := ih (pool.invalidate a)
      _ ≤ pool.counts.getD j 0 := pool.invalidate_counts_le a j

theorem TheoremPool.foldl_update_counts_le (L : List Nat)
    (ps : TheoremPool × Slither.SideMapInner) (j : Nat) :
    ((L.foldl (fun ps i => ps.1.update i ps.2) ps).1.counts.getD j 0) ≤
      ps.1.counts.getD j 0 := by
  induction L generalizing ps with
  | nil => exact le_refl _
  | cons a t ih =>
    calc ((t.foldl (fun ps i => ps.1.update i ps.2) (ps.1.update a ps.2)).1.counts.getD j 0)
        ≤ (ps.1.update a ps.2).1.counts.getD j 0 := ih _
      _ ≤ ps.1.counts.getD j 0 := ps.1.update_counts_le a ps.2 j

theorem TheoremPool.foldl_invalidate_zero_of_mem (L : List Nat)
    (pool : TheoremPool) (i : Nat) (h : i ∈ L) :
    ((L.foldl TheoremPool.invalidate pool).counts.getD i 0) = 0 := by
  induction L generalizing pool with
  | nil => cases h
  | cons a t ih =>
    rcases List.mem_cons.mp h with heq | hmem
    · subst heq
      rw [List.foldl_cons]
      have hle := TheoremPool.foldl_invalidate_counts_le t (pool.invalidate i) i
      have h0 := pool.invalidate_counts_self i
      omega
    · rw [List.foldl_cons]
      exact ih (pool.invalidate a) hmem

theorem TheoremPool.stepFixed_counts_le (pool : TheoremPool)
    (inn : Slither.SideMapInner) (inval upd : List Nat) (j : Nat) :
    ((pool.stepFixed inn inval upd).1).counts.getD j 0 ≤ pool.counts.getD j 0 := by
  unfold TheoremPool.stepFixed
  calc ((upd.foldl (fun ps i => ps.1.update i ps.2)
          (inval.foldl TheoremPool.invalidate pool, inn)).1.counts.getD j 0)
      ≤ (inval.foldl TheoremPool.invalidate pool).counts.getD j 0 :=
        TheoremPool.foldl_update_counts_le upd _ j
    _ ≤ pool.counts.getD j 0 := TheoremPool.foldl_invalidate_counts_le inval pool j

theorem TheoremPool.stepFixed_zero_of_mem_inval (pool : TheoremPool)
    (inn : Slither.SideMapInner) (inval upd : List Nat) (i : Nat) (h : i ∈ inval) :
    ((pool.stepFixed inn inval upd).1).counts.getD i 0 = 0 := by
  have h0 := TheoremPool.foldl_invalidate_zero_of_mem inval pool i h
  have hle : ((pool.stepFixed inn inval upd).1).counts.getD i 0 ≤
      (inval.foldl TheoremPool.invalidate pool).counts.getD i 0 :=
    TheoremPool.foldl_update_counts_le upd
      (inval.foldl TheoremPool.invalidate pool, inn) i
  omega

theorem applyAllAux_ok_sublist :
    ∀ (l : List IndexByEdge) (pool : TheoremPool) (inn : Slither.SideMapInner)
      (kept : List IndexByEdge) (pool' : TheoremPool) (inn' : Slither.SideMapInner),
      applyAllAux l pool inn = Except.ok (kept, pool', inn') → kept.Sublist l := by
  intro l
  induction l with
  | nil =>
    intro pool inn kept pool' inn' h
    simp only [applyAllAux, Except.ok.injEq, Prod.mk.injEq] at h
    rw [← h.1]
  | cons ibe rest ih =>
    intro pool inn kept pool' inn' h
    rcases hedge : getEdgeId inn ibe.points.1 ibe.points.2 with _ | e | _
    · -- Unknown
      simp only [applyAllAux, hedge] at h
      rcases haux : applyAllAux rest pool inn with err | z
      · rw [haux] at h
        simp [Except.map] at h
      · obtain ⟨kz, pz, iz⟩ := z
        rw [haux] at h
        simp only [Except.map, Except.ok.injEq, Prod.mk.injEq] at h
        obtain ⟨hk, hp, hi⟩ := h
        rw [← hk]
        exact List.Sublist.cons₂ ibe (ih pool inn kz pz iz (by rw [haux]))
    · -- Fixed e
      cases e with
      | Line =>
        simp only [applyAllAux, hedge] at h
        exact List.Sublist.cons ibe (ih _ _ kept pool' inn' h)
      | Cross =>
        simp only [applyAllAux, hedge] at h
        exact List.Sublist.cons ibe (ih _ _ kept pool' inn' h)
    · -- Conflict
      simp [applyAllAux, hedge] at h

theorem applyAllAux_ok_counts_le :
    ∀ (l : List IndexByEdge) (pool : TheoremPool) (inn : Slither.SideMapInner)
      (kept : List IndexByEdge) (pool' : TheoremPool) (inn' : Slither.SideMapInner),
      applyAllAux l pool inn = Except.ok (kept, pool', inn') →
        ∀ j, pool'.counts.getD j 0 ≤ pool.counts.getD j 0 := by
  intro l
  induction l with
  | nil =>
    intro pool inn kept pool' inn' h j
    simp only [applyAllAux, Except.ok.injEq, Prod.mk.injEq] at h
    rw [← h.2.1]
  | cons ibe rest ih =>
    intro pool inn kept pool' inn' h j
    rcases hedge : getEdgeId inn ibe.points.1 ibe.points.2 with _ | e | _
    · simp only [applyAllAux, hedge] at h
      rcases haux : applyAllAux rest pool inn with err | z
      · rw [haux] at h
        simp [Except.map] at h
      · obtain ⟨kz, pz, iz⟩ := z
        rw [haux] at h
        simp only [Except.map, Except.ok.injEq, Prod.mk.injEq] at h
        obtain ⟨hk, hp, hi⟩ := h
        rw [← hp]
        exact ih pool inn kz pz iz (by rw [haux]) j
    · cases e with
      | Line =>
        simp only [applyAllAux, hedge] at h
        calc pool'.counts.getD j 0
            ≤ ((pool.stepFixed inn ibe.expect_cross ibe.expect_line).1).counts.getD j 0 :=
              ih _ _ kept pool' inn' h j
          _ ≤ pool.counts.getD j 0 := pool.stepFixed_counts_le inn _ _ j
      | Cross =>
        simp only [applyAllAux, hedge] at h
        calc pool'.counts.getD j 0
            ≤ ((pool.stepFixed inn ibe.expect_line ibe.expect_cross).1).counts.getD j 0 :=
              ih _ _ kept pool' inn' h j
          _ ≤ pool.counts.getD j 0 := pool.stepFixed_counts_le inn _ _ j
    · simp [applyAllAux, hedge] at h

end Srither

/-- **C4**: `TheoremPool::update(i)` is a no-op when `counts[i]` is 0; when
`counts[i]` is 1 it zeroes the count and applies every edge pattern of
`results[i]` to the side map; otherwise it decrements `counts[i]` by exactly
one.  Neither `update` nor `invalidate` ever increases a count, so a matcher
fires (reaches the 1→0 transition) at most once. -/
theorem claim4_update_fires_once (pool : Srither.TheoremPool)
    (inn : Slither.SideMapInner) (i : Nat) (h : i < pool.counts.length) :
    (pool.counts.getD i 0 = 0 → pool.update i inn = (pool, inn)) ∧
    (pool.counts.getD i 0 = 1 →
      (pool.update i inn).1.counts = pool.counts.set i 0 ∧
      (pool.update i inn).1.results = pool.results ∧
      (pool.update i inn).2 =
        (pool.results.getD i []).foldl (fun s pat => pat.apply s) inn) ∧
    (∀ n, pool.counts.getD i 0 = n + 2 →
      (pool.update i inn).1.counts = pool.counts.set i (n + 1) ∧
      (pool.update i inn).2 = inn) ∧
    (∀ j, (pool.update i inn).1.counts.getD j 0 ≤ pool.counts.getD j 0) ∧
    (∀ j, (pool.invalidate i).counts.getD j 0 ≤ pool.counts.getD j 0) := by
  refine ⟨?_, ?_, ?_, fun j => pool.update_counts_le i inn j,
    fun j => pool.invalidate_counts_le i j⟩
  · intro h0
    unfold Srither.TheoremPool.update
    split
    · rfl
    · next heq => rw [h0] at heq; cases heq
    · next n heq => rw [h0] at heq; cases heq
  · intro h1
    unfold Srither.TheoremPool.update
    split
    · next heq => rw [h1] at heq; cases heq
    · exact ⟨rfl, rfl, rfl⟩
    · next n heq => rw [h1] at heq; cases heq
  · intro n hn
    unfold Srither.TheoremPool.update
    split
    · next heq => rw [hn] at heq; cases heq
    · next heq => rw [hn] at heq; cases heq
    · next m heq =>
      rw [hn] at heq
      have hmn : m = n := by omega
      subst hmn
      exact ⟨rfl, rfl⟩

/-- Witness for C4: a pool with a single matcher at count 1 fires and
applies its results. -/
theorem claim4_update_fires_once_witness :
    ((⟨[1], [[⟨Srither.Edge.Line, (1, 2)⟩]], []⟩ : Srither.TheoremPool).update 0
        (Slither.SideMapInner.new 3)).2 =
      ((⟨[1], [[⟨Srither.Edge.Line, (1, 2)⟩]], []⟩ :
          Srither.TheoremPool).results.getD 0 []).foldl
        (fun s pat => pat.apply s) (Slither.SideMapInner.new 3) :=
  ((claim4_update_fires_once ⟨[1], [[⟨Srither.Edge.Line, (1, 2)⟩]], []⟩
    (Slither.SideMapInner.new 3) 0 (by decide)).2.1 (by decide)).2.2

/-- **C5**: in one `apply_all` pass over the indexed edges, an edge fixed to
`Cross` invalidates every theorem expecting `Line` there (their counts end
at 0) and updates every theorem expecting `Cross`; a `Line` edge acts
symmetrically; an `Unknown` edge is retained (compacted forward) in
`index_by_edge`; a `Conflict` edge makes `apply_all` return the
invalid-board error.  On success the surviving index is a subsequence of
the original and no count has increased. -/
theorem claim5_apply_all_pass (pool : Srither.TheoremPool)
    (inn : Slither.SideMapInner) (ibe : Srither.IndexByEdge)
    (rest : List Srither.IndexByEdge)
    (hidx : pool.index_by_edge = ibe :: rest) :
    (Srither.getEdgeId inn ibe.points.1 ibe.points.2 = Srither.State.Conflict →
      pool.apply_all inn = Except.error Srither.SolverError.invalidBoard) ∧
    (Srither.getEdgeId inn ibe.points.1 ibe.points.2 =
        Srither.State.Fixed Srither.Edge.Cross →
      Srither.applyAllAux (ibe :: rest) pool inn =
        Srither.applyAllAux rest
          (pool.stepFixed inn ibe.expect_line ibe.expect_cross).1
          (pool.stepFixed inn ibe.expect_line ibe.expect_cross).2 ∧
      ∀ i ∈ ibe.expect_line,
        ((pool.stepFixed inn ibe.expect_line ibe.expect_cross).1).counts.getD i 0 = 0) ∧
    (Srither.getEdgeId inn ibe.points.1 ibe.points.2 =
        Srither.State.Fixed Srither.Edge.Line →
      Srither.applyAllAux (ibe :: rest) pool inn =
        Srither.applyAllAux rest
          (pool.stepFixed inn ibe.expect_cross ibe.expect_line).1
          (pool.stepFixed inn ibe.expect_cross ibe.expect_line).2 ∧
      ∀ i ∈ ibe.expect_cross,
        ((pool.stepFixed inn ibe.expect_cross ibe.expect_line).1).counts.getD i 0 = 0) ∧
    (Srither.getEdgeId inn ibe.points.1 ibe.points.2 = Srither.State.Unknown →
      Srither.applyAllAux (ibe :: rest) pool inn =
        (Srither.applyAllAux rest pool inn).map fun r => (ibe :: r.1, r.2)) ∧
    (∀ (pool' : Srither.TheoremPool) (inn' : Slither.SideMapInner),
      pool.apply_all inn = Except.ok (pool', inn') →
        pool'.index_by_edge.Sublist pool.index_by_edge ∧
        ∀ j, pool'.counts.getD j 0 ≤ pool.counts.getD j 0) := by
  refine ⟨?_, ?_, ?_, ?_, ?_⟩
  · intro hconf
    unfold Srither.TheoremPool.apply_all
    rw [hidx]
    simp only [Srither.applyAllAux, hconf]
    rfl
  · intro hcross
    refine ⟨by simp only [Srither.applyAllAux, hcross], ?_⟩
    exact fun i hi => pool.stepFixed_zero_of_mem_inval inn _ _ i hi
  · intro hline
    refine ⟨by simp only [Srither.applyAllAux, hline], ?_⟩
    exact fun i hi => pool.stepFixed_zero_of_mem_inval inn _ _ i hi
  · intro hunk
    simp only [Srither.applyAllAux, hunk]
  · intro pool' inn' hok
    unfold Srither.TheoremPool.apply_all at hok
    rcases haux : Srither.applyAllAux pool.index_by_edge pool inn with err | z
    · rw [haux] at hok
      simp [Except.map] at hok
    · obtain ⟨kz, pz, iz⟩ := z
      rw [haux] at hok
      simp only [Except.map, Except.ok.injEq, Prod.mk.injEq] at hok
      obtain ⟨hp, hi⟩ := hok
      have hsub := Srither.applyAllAux_ok_sublist pool.index_by_edge pool inn
        kz pz iz haux
      have hcnt := Srither.applyAllAux_ok_counts_le pool.index_by_edge pool inn
        kz pz iz haux
      constructor
      · rw [← hp]
        exact hsub
      · intro j
        rw [← hp]
        exact hcnt j

/-- Witness for C5: an `Unknown` indexed edge on a fresh side map is
retained by the pass. -/
theorem claim5_apply_all_pass_witness :
    Srither.applyAllAux [⟨(1, 2), [0], []⟩]
        (⟨[1], [[]], [⟨(1, 2), [0], []⟩]⟩ : Srither.TheoremPool)
        (Slither.SideMapInner.new 3) =
      (Srither.applyAllAux []
        (⟨[1], [[]], [⟨(1, 2), [0], []⟩]⟩ : Srither.TheoremPool)
        (Slither.SideMapInner.new 3)).map
          (fun r => ((⟨(1, 2), [0], []⟩ : Srither.IndexByEdge) :: r.1, r.2)) :=
  (claim5_apply_all_pass ⟨[1], [[]], [⟨(1, 2), [0], []⟩]⟩
    (Slither.SideMapInner.new 3) ⟨(1, 2), [0], []⟩ [] rfl).2.2.2.1 (by decide)

/-! ## Helper lemmas for `mark_common` and the connectivity graph -/

theorem foldl_inv_pq {α β : Type} (P Q : α → Prop) (step : α → β → α) (l : List β)
    (m0 : α) (hP : ∀ m x, Q m → P m → P (step m x))
    (hQ : ∀ m x, Q m → Q (step m x)) (h0 : P m0 ∧ Q m0) :
    P (l.foldl step m0) ∧ Q (l.foldl step m0) := by
  induction l generalizing m0 with
  | nil => exact h0
  | cons a t ih =>
    rw [List.foldl_cons]
    exact ih (step m0 a) ⟨hP m0 a h0.2 h0.1, hQ m0 a h0.2⟩

theorem foldl_establish {α : Type} (P Q : α → Prop) (step : α → Nat → α)
    (l : List Nat) (i : Nat) (m0 : α)
    (hP : ∀ m x, Q m → P m → P (step m x))
    (hQ : ∀ m x, Q m → Q (step m x))
    (hest : ∀ m, Q m → P (step m i))
    (hQ0 : Q m0) (hi : i ∈ l) :
    P (l.foldl step m0) ∧ Q (l.foldl step m0) := by
  induction l generalizing m0 with
  | nil => cases hi
  | cons a t ih =>
    rw [List.foldl_cons]
    by_cases hai : a = i
    · subst hai
      exact foldl_inv_pq P Q step t (step m0 a) hP hQ ⟨hest m0 hQ0, hQ m0 a hQ0⟩
    · rcases List.mem_cons.mp hi with heq | hmem
      · exact absurd heq.symm hai
      · exact ih (step m0 a) (hQ m0 a hQ0) hmem

theorem foldl_congr_id {α β : Type} (step : α → β → α) (l : List β) (m0 : α)
    (h : ∀ x ∈ l, ∀ m, step m x = m) : l.foldl step m0 = m0 := by
  induction l generalizing m0 with
  | nil => rfl
  | cons a t ih =>
    rw [List.foldl_cons, h a (List.mem_cons_self a t)]
    exact ih m0 (fun x hx m => h x (List.mem_cons_of_mem a hx) m)

namespace Slither

theorem SideMapInner.set_same_find_mono (m : SideMapInner) (a b x y : Nat)
    (hx : x < m.uf.rep.length) (hy : y < m.uf.rep.length)
    (h : m.uf.find x y = true) : ((m.set_same a b).1).uf.find x y = true := by
  have h1 := Srither.UnionFind.find_mono m.uf x y (key0 a) (key0 b) hx hy h
  have hx1 : x < ((m.uf.union (key0 a) (key0 b)).1).rep.length := by
    rw [Srither.UnionFind.union_length]; exact hx
  have hy1 : y < ((m.uf.union (key0 a) (key0 b)).1).rep.length := by
    rw [Srither.UnionFind.union_length]; exact hy
  exact Srither.UnionFind.find_mono _ x y (key1 a) (key1 b) hx1 hy1 h1

theorem SideMapInner.set_different_find_mono (m : SideMapInner) (a b x y : Nat)
    (hx : x < m.uf.rep.length) (hy : y < m.uf.rep.length)
    (h : m.uf.find x y = true) : ((m.set_different a b).1).uf.find x y = true := by
  have h1 := Srither.UnionFind.find_mono m.uf x y (key0 a) (key1 b) hx hy h
  have hx1 : x < ((m.uf.union (key0 a) (key1 b)).1).rep.length := by
    rw [Srither.UnionFind.union_length]; exact hx
  have hy1 : y < ((m.uf.union (key0 a) (key1 b)).1).rep.length := by
    rw [Srither.UnionFind.union_length]; exact hy
  exact Srither.UnionFind.find_mono _ x y (key1 a) (key0 b) hx1 hy1 h1

theorem SideMapInner.set_same_is_same (m : SideMapInner) (i j : Nat)
    (hi0 : key0 i < m.uf.rep.length) (hj0 : key0 j < m.uf.rep.length) :
    ((m.set_same i j).1).is_same i j = true := by
  have h1 : ((m.uf.union (key0 i) (key0 j)).1).find (key0 i) (key0 j) = true :=
    Srither.UnionFind.find_union_self m.uf (key0 i) (key0 j) hi0 hj0
  have hx1 : key0 i < ((m.uf.union (key0 i) (key0 j)).1).rep.length := by
    rw [Srither.UnionFind.union_length]; exact hi0
  have hy1 : key0 j < ((m.uf.union (key0 i) (key0 j)).1).rep.length := by
    rw [Srither.UnionFind.union_length]; exact hj0
  exact Srither.UnionFind.find_mono _ (key0 i) (key0 j) (key1 i) (key1 j) hx1 hy1 h1

theorem SideMapInner.set_different_is_different (m : SideMapInner) (i j : Nat)
    (hi0 : key0 i < m.uf.rep.length) (hj1 : key1 j < m.uf.rep.length) :
    ((m.set_different i j).1).is_different i j = true := by
  have h1 : ((m.uf.union (key0 i) (key1 j)).1).find (key0 i) (key1 j) = true :=
    Srither.UnionFind.find_union_self m.uf (key0 i) (key1 j) hi0 hj1
  have hx1 : key0 i < ((m.uf.union (key0 i) (key1 j)).1).rep.length := by
    rw [Srither.UnionFind.union_length]; exact hi0
  have hy1 : key1 j < ((m.uf.union (key0 i) (key1 j)).1).rep.length := by
    rw [Srither.UnionFind.union_length]; exact hj1
  exact Srither.UnionFind.find_mono _ (key0 i) (key1 j) (key1 i) (key0 j) hx1 hy1 h1

end Slither

namespace Srither

open Slither (key0 key1)

theorem setSideId_length (m : Slither.SideMapInner) (c : Nat) (s : PSide) :
    ((setSideId m c s).1).uf.rep.length = m.uf.rep.length := by
  cases s
  · exact m.set_different_uf_length c OUTSIDE_CELL_ID
  · exact m.set_same_uf_length c OUTSIDE_CELL_ID

theorem setEdgeId_length (m : Slither.SideMapInner) (c0 c1 : Nat) (e : Edge) :
    ((setEdgeId m c0 c1 e).1).uf.rep.length = m.uf.rep.length := by
  cases e
  · exact m.set_different_uf_length c0 c1
  · exact m.set_same_uf_length c0 c1

theorem setSideId_find_mono (m : Slither.SideMapInner) (c : Nat) (s : PSide)
    (x y : Nat) (hx : x < m.uf.rep.length) (hy : y < m.uf.rep.length)
    (h : m.uf.find x y = true) : ((setSideId m c s).1).uf.find x y = true := by
  cases s
  · exact m.set_different_find_mono c OUTSIDE_CELL_ID x y hx hy h
  · exact m.set_same_find_mono c OUTSIDE_CELL_ID x y hx hy h

theorem setEdgeId_find_mono (m : Slither.SideMapInner) (c0 c1 : Nat) (e : Edge)
    (x y : Nat) (hx : x < m.uf.rep.length) (hy : y < m.uf.rep.length)
    (h : m.uf.find x y = true) : ((setEdgeId m c0 c1 e).1).uf.find x y = true := by
  cases e
  · exact m.set_different_find_mono c0 c1 x y hx hy h
  · exact m.set_same_find_mono c0 c1 x y hx hy h

theorem setSideId_establishes (m : Slither.SideMapInner) (c : Nat) (s : PSide)
    (hc : key1 c < m.uf.rep.length) (h1 : key1 OUTSIDE_CELL_ID < m.uf.rep.length) :
    sideHolds ((setSideId m c s).1) c s = true := by
  have hc0 : key0 c < m.uf.rep.length := by
    simp only [key0, key1] at *; omega
  cases s
  · exact m.set_different_is_different c OUTSIDE_CELL_ID hc0 h1
  · have h00 : key0 OUTSIDE_CELL_ID < m.uf.rep.length := by
      simp only [key0, key1] at *; omega
    exact m.set_same_is_same c OUTSIDE_CELL_ID hc0 h00

theorem setEdgeId_establishes (m : Slither.SideMapInner) (c0 c1 : Nat) (e : Edge)
    (h0 : key1 c0 < m.uf.rep.length) (h1 : key1 c1 < m.uf.rep.length) :
    edgeHolds ((setEdgeId m c0 c1 e).1) c0 c1 e = true := by
  have h00 : key0 c0 < m.uf.rep.length := by
    simp only [key0, key1] at *; omega
  have h10 : key0 c1 < m.uf.rep.length := by
    simp only [key0, key1] at *; omega
  cases e
  · exact m.set_different_is_different c0 c1 h00 h1
  · exact m.set_same_is_same c0 c1 h00 h10

theorem markCommonSideStep_length (s0 s1 m : Slither.SideMapInner) (i : Nat) :
    (markCommonSideStep s0 s1 m i).uf.rep.length = m.uf.rep.length := by
  unfold markCommonSideStep
  split
  · split
    · exact setSideId_length m i _
    · rfl
  · rfl

theorem markCommonEdgeStep_length (s0 s1 : Slither.SideMapInner) (off : Nat)
    (m : Slither.SideMapInner) (i : Nat) :
    (markCommonEdgeStep s0 s1 off m i).uf.rep.length = m.uf.rep.length := by
  unfold markCommonEdgeStep
  split
  · split
    · exact setEdgeId_length m i (i + off) _
    · rfl
  · rfl

theorem markCommonSideStep_find_mono (s0 s1 m : Slither.SideMapInner) (i x y : Nat)
    (hx : x < m.uf.rep.length) (hy : y < m.uf.rep.length)
    (h : m.uf.find x y = true) :
    (markCommonSideStep s0 s1 m i).uf.find x y = true := by
  unfold markCommonSideStep
  split
  · split
    · exact setSideId_find_mono m i _ x y hx hy h
    · exact h
  · exact h

theorem markCommonEdgeStep_find_mono (s0 s1 : Slither.SideMapInner) (off : Nat)
    (m : Slither.SideMapInner) (i x y : Nat)
    (hx : x < m.uf.rep.length) (hy : y < m.uf.rep.length)
    (h : m.uf.find x y = true) :
    (markCommonEdgeStep s0 s1 off m i).uf.find x y = true := by
  unfold markCommonEdgeStep
  split
  · split
    · exact setEdgeId_find_mono m i (i + off) _ x y hx hy h
    · exact h
  · exact h

end Srither

namespace Srither

open Slither (key0 key1)

theorem foldl_sideStep_mono (s0 s1 : Slither.SideMapInner) (l : List Nat)
    (m0 : Slither.SideMapInner) (x y : Nat)
    (hx : x < m0.uf.rep.length) (hy : y < m0.uf.rep.length)
    (h : m0.uf.find x y = true) :
    ((l.foldl (markCommonSideStep s0 s1) m0).uf.find x y = true) ∧
    (l.foldl (markCommonSideStep s0 s1) m0).uf.rep.length = m0.uf.rep.length :=
  foldl_inv_pq (fun m => m.uf.find x y = true)
    (fun m => m.uf.rep.length = m0.uf.rep.length) _ l m0
    (fun m i hq hp =>
      markCommonSideStep_find_mono s0 s1 m i x y (by rw [hq]; exact hx)
        (by rw [hq]; exact hy) hp)
    (fun m i hq => by
      show (markCommonSideStep s0 s1 m i).uf.rep.length = m0.uf.rep.length
      rw [markCommonSideStep_length]; exact hq)
    ⟨h, rfl⟩

theorem foldl_edgeStep_mono (s0 s1 : Slither.SideMapInner) (off : Nat)
    (l : List Nat) (m0 : Slither.SideMapInner) (x y : Nat)
    (hx : x < m0.uf.rep.length) (hy : y < m0.uf.rep.length)
    (h : m0.uf.find x y = true) :
    ((l.foldl (markCommonEdgeStep s0 s1 off) m0).uf.find x y = true) ∧
    (l.foldl (markCommonEdgeStep s0 s1 off) m0).uf.rep.length = m0.uf.rep.length :=
  foldl_inv_pq (fun m => m.uf.find x y = true)
    (fun m => m.uf.rep.length = m0.uf.rep.length) _ l m0
    (fun m i hq hp =>
      markCommonEdgeStep_find_mono s0 s1 off m i x y (by rw [hq]; exact hx)
        (by rw [hq]; exact hy) hp)
    (fun m i hq => by
      show (markCommonEdgeStep s0 s1 off m i).uf.rep.length = m0.uf.rep.length
      rw [markCommonEdgeStep_length]; exact hq)
    ⟨h, rfl⟩

theorem foldl_sideStep_length (s0 s1 : Slither.SideMapInner) (l : List Nat)
    (m0 : Slither.SideMapInner) :
    (l.foldl (markCommonSideStep s0 s1) m0).uf.rep.length = m0.uf.rep.length := by
  induction l generalizing m0 with
  | nil => rfl
  | cons a t ih =>
    rw [List.foldl_cons, ih (markCommonSideStep s0 s1 m0 a),
      markCommonSideStep_length]

theorem foldl_edgeStep_length (s0 s1 : Slither.SideMapInner) (off : Nat)
    (l : List Nat) (m0 : Slither.SideMapInner) :
    (l.foldl (markCommonEdgeStep s0 s1 off) m0).uf.rep.length = m0.uf.rep.length := by
  induction l generalizing m0 with
  | nil => rfl
  | cons a t ih =>
    rw [List.foldl_cons, ih (markCommonEdgeStep s0 s1 off m0 a),
      markCommonEdgeStep_length]

/-- The probe established by a side agreement holds as a single union-find
`find`, whose two node arguments are these. -/
theorem sideHolds_as_find (m : Slither.SideMapInner) (c : Nat) (s : PSide) :
    sideHolds m c s =
      m.uf.find (key0 c) (match s with
        | PSide.In => key1 OUTSIDE_CELL_ID
        | PSide.Out => key0 OUTSIDE_CELL_ID) := by
  cases s <;> rfl

/-- Same for an edge agreement. -/
theorem edgeHolds_as_find (m : Slither.SideMapInner) (c0 c1 : Nat) (e : Edge) :
    edgeHolds m c0 c1 e =
      m.uf.find (key0 c0) (match e with
        | Edge.Line => key1 c1
        | Edge.Cross => key0 c1) := by
  cases e <;> rfl

end Srither

/-- **C6 (counterexample)**: with one interior region of unknown side, the
analysis pass for side `s = In` (filter `Out`) builds a vertex list that
does **not** contain the outside cell — `create_conn_graph` pushes the
outside id only when the filter is not `Out`, i.e. when `s = Out`, contrary
to the claim's "exactly when s = In". -/
theorem claim6_conn_graph_counterexample :
    ((Srither.createConnGraph
      ⟨2, [⟨0, Srither.State.Fixed Srither.PSide.Out, 0, [1]⟩,
           ⟨1, Srither.State.Unknown, 0, [0]⟩]⟩ Srither.PSide.Out).1 = [1]) ∧
    Srither.OUTSIDE_CELL_ID ∉
      ((Srither.createConnGraph
        ⟨2, [⟨0, Srither.State.Fixed Srither.PSide.Out, 0, [1]⟩,
             ⟨1, Srither.State.Unknown, 0, [0]⟩]⟩ Srither.PSide.Out).1) := by
  decide

/-- **C6 (amended)**: the vertex list of `create_conn_graph` is sorted; it
contains the outside cell id exactly when the filter is `In` (i.e. when the
analyzed side `s` is `Out`), together with every region representative
(`coord` equal to its own id, within `cell_len`) whose side is not
`Fixed(filter)`; and the adjacency lists are the unknown-edge links
resolved into the sorted vertex list by (binary) search. -/
theorem claim6_conn_graph_structure (cm : Srither.ConnectMap)
    (filterSide : Srither.PSide) :
    List.Sorted (· ≤ ·) (Srither.createConnGraph cm filterSide).1 ∧
    (∀ x : Nat, x ∈ (Srither.createConnGraph cm filterSide).1 ↔
      ((filterSide = Srither.PSide.In ∧ x = Srither.OUTSIDE_CELL_ID) ∨
        (x < cm.cellLen ∧ (cm.get x).coord = x ∧
          (cm.get x).side ≠ Srither.State.Fixed filterSide))) ∧
    (Srither.createConnGraph cm filterSide).2 =
      (Srither.createConnGraph cm filterSide).1.map
        (fun p => (cm.get p).unknownEdge.filterMap
          (Srither.binSearch (Srither.createConnGraph cm filterSide).1)) := by
  refine ⟨List.sorted_insertionSort _ _, ?_, rfl⟩
  intro x
  have hmem : x ∈ (Srither.createConnGraph cm filterSide).1 ↔
      x ∈ ((if filterSide ≠ Srither.PSide.Out then [Srither.OUTSIDE_CELL_ID] else []) ++
        (List.range cm.cellLen).filter
          (fun i => (cm.get i).coord == i &&
            (cm.get i).side != Srither.State.Fixed filterSide)) :=
    (List.perm_insertionSort _ _).mem_iff
  rw [hmem, List.mem_append, List.mem_filter, List.mem_range]
  cases filterSide
  · simp [Srither.OUTSIDE_CELL_ID, Bool.and_eq_true, and_assoc]
  · simp [Srither.OUTSIDE_CELL_ID, Bool.and_eq_true, and_assoc]

namespace Srither

open Slither (key0 key1)

theorem markCommonSideStep_establishes (s0 s1 m : Slither.SideMapInner)
    (i : Nat) (s : PSide)
    (h0 : getSideId s0 i = State.Fixed s) (h1 : getSideId s1 i = State.Fixed s)
    (hc : key1 i < m.uf.rep.length)
    (ho : key1 OUTSIDE_CELL_ID < m.uf.rep.length) :
    sideHolds (markCommonSideStep s0 s1 m i) i s = true := by
  unfold markCommonSideStep
  split
  · next side heq =>
    rw [h0] at heq
    injection heq with hss
    subst hss
    rw [if_pos h1]
    exact setSideId_establishes m i s hc ho
  · next heq =>
    exact absurd h0 (heq s)

theorem markCommonEdgeStep_establishes (s0 s1 : Slither.SideMapInner) (off : Nat)
    (m : Slither.SideMapInner) (i : Nat) (e : Edge)
    (h0 : getEdgeId s0 i (i + off) = State.Fixed e)
    (h1 : getEdgeId s1 i (i + off) = State.Fixed e)
    (hc0 : key1 i < m.uf.rep.length) (hc1 : key1 (i + off) < m.uf.rep.length) :
    edgeHolds (markCommonEdgeStep s0 s1 off m i) i (i + off) e = true := by
  unfold markCommonEdgeStep
  split
  · next e' heq =>
    rw [h0] at heq
    injection heq with hee
    subst hee
    rw [if_pos h1]
    exact setEdgeId_establishes m i (i + off) e hc0 hc1
  · next heq =>
    exact absurd h0 (heq e)

end Srither

/-- **C7 (counterexample)**: on a 2×2 board (`cell_len = 5`, `column = 2`),
cells 2 = (0,1) and 3 = (1,0) are not adjacent, yet when both branches agree
on a fixed `Line` edge for the consecutive-id pair `(2, 3)`, `mark_common`
copies that relation into the parent — the parent changes at a pair that is
not an adjacent cell-pair, refuting "it changes nothing else". -/
theorem claim7_mark_common_counterexample :
    Srither.adjacentCells ((2 : Int), (2 : Int)) 2 3 = false ∧
    Srither.getEdgeId (Slither.SideMapInner.new 5) 2 3 = Srither.State.Unknown ∧
    Srither.getEdgeId
      (Srither.markCommon 5 2 (Slither.SideMapInner.new 5)
        (Srither.setEdgeId (Slither.SideMapInner.new 5) 2 3 Srither.Edge.Line).1
        (Srither.setEdgeId (Slither.SideMapInner.new 5) 2 3 Srither.Edge.Line).1) 2 3 =
      Srither.State.Fixed Srither.Edge.Line := by
  decide

/-- **C7 (amended)**: `mark_common` copies into the parent every side on
which both branches agree as `Fixed`, for every cell id `i < cell_len`, and
every edge on which both branches agree as `Fixed` for the consecutive-id
pairs `(i, i+1)`, `i < cell_len - 1`, and the column-offset pairs
`(i, i+column)`, `i < cell_len - column` — these pair families include the
row-wrapping consecutive-id pairs that are not geometrically adjacent and
omit most border pairs (whose agreements are nevertheless recovered through
the side copies).  When no such agreement exists at any iterated position,
the parent is left unchanged. -/
theorem claim7_mark_common_copies (cellLen column : Nat)
    (parent s0 s1 : Slither.SideMapInner)
    (hLen : 2 * cellLen ≤ parent.uf.rep.length) :
    (∀ i s, i < cellLen → Srither.getSideId s0 i = Srither.State.Fixed s →
      Srither.getSideId s1 i = Srither.State.Fixed s →
      Srither.sideHolds (Srither.markCommon cellLen column parent s0 s1) i s = true) ∧
    (∀ i e, i < cellLen - 1 →
      Srither.getEdgeId s0 i (i + 1) = Srither.State.Fixed e →
      Srither.getEdgeId s1 i (i + 1) = Srither.State.Fixed e →
      Srither.edgeHolds (Srither.markCommon cellLen column parent s0 s1) i (i + 1) e
        = true) ∧
    (∀ i e, i < cellLen - column →
      Srither.getEdgeId s0 i (i + column) = Srither.State.Fixed e →
      Srither.getEdgeId s1 i (i + column) = Srither.State.Fixed e →
      Srither.edgeHolds (Srither.markCommon cellLen column parent s0 s1) i (i + column) e
        = true) ∧
    ((∀ i, i < cellLen → ¬∃ s, Srither.getSideId s0 i = Srither.State.Fixed s ∧
        Srither.getSideId s1 i = Srither.State.Fixed s) →
      (∀ i, i < cellLen - 1 →
        ¬∃ e, Srither.getEdgeId s0 i (i + 1) = Srither.State.Fixed e ∧
          Srither.getEdgeId s1 i (i + 1) = Srither.State.Fixed e) →
      (∀ i, i < cellLen - column →
        ¬∃ e, Srither.getEdgeId s0 i (i + column) = Srither.State.Fixed e ∧
          Srither.getEdgeId s1 i (i + column) = Srither.State.Fixed e) →
      Srither.markCommon cellLen column parent s0 s1 = parent) := by
  have hmark : Srither.markCommon cellLen column parent s0 s1 =
      (List.range (cellLen - column)).foldl (Srither.markCommonEdgeStep s0 s1 column)
        ((List.range (cellLen - 1)).foldl (Srither.markCommonEdgeStep s0 s1 1)
          ((List.range cellLen).foldl (Srither.markCommonSideStep s0 s1) parent)) := rfl
  have main : ∀ (X Y : Nat), X < parent.uf.rep.length → Y < parent.uf.rep.length →
      ∀ m1 : Slither.SideMapInner, m1.uf.rep.length = parent.uf.rep.length →
      m1.uf.find X Y = true →
      ((List.range (cellLen - column)).foldl (Srither.markCommonEdgeStep s0 s1 column)
        ((List.range (cellLen - 1)).foldl (Srither.markCommonEdgeStep s0 s1 1)
          m1)).uf.find X Y = true := by
    intro X Y hX hY m1 hQ1 hP1
    have h2 := Srither.foldl_edgeStep_mono s0 s1 1 (List.range (cellLen - 1)) m1 X Y
      (by rw [hQ1]; exact hX) (by rw [hQ1]; exact hY) hP1
    obtain ⟨hP2, hQ2⟩ := h2
    exact (Srither.foldl_edgeStep_mono s0 s1 column (List.range (cellLen - column)) _ X Y
      (by rw [hQ2, hQ1]; exact hX) (by rw [hQ2, hQ1]; exact hY) hP2).1
  refine ⟨?_, ?_, ?_, ?_⟩
  · -- side agreements
    intro i s hi h0 h1
    rw [hmark]
    have hki : Slither.key1 i < parent.uf.rep.length := by
      simp only [Slither.key1]; omega
    have hk0 : Slither.key1 Srither.OUTSIDE_CELL_ID < parent.uf.rep.length := by
      simp only [Slither.key1, Srither.OUTSIDE_CELL_ID]; omega
    have hki0 : Slither.key0 i < parent.uf.rep.length := by
      simp only [Slither.key0]; omega
    have hk00 : Slither.key0 Srither.OUTSIDE_CELL_ID < parent.uf.rep.length := by
      simp only [Slither.key0, Srither.OUTSIDE_CELL_ID]; omega
    cases s
    · -- Fixed In: the "different from outside" probe
      have hestq := foldl_establish
        (fun m => m.uf.find (Slither.key0 i)
          (Slither.key1 Srither.OUTSIDE_CELL_ID) = true)
        (fun m => m.uf.rep.length = parent.uf.rep.length)
        (Srither.markCommonSideStep s0 s1) (List.range cellLen) i parent
        (fun m x hq hp =>
          Srither.markCommonSideStep_find_mono s0 s1 m x _ _
            (by rw [hq]; exact hki0) (by rw [hq]; exact hk0) hp)
        (fun m x hq => by
          show (Srither.markCommonSideStep s0 s1 m x).uf.rep.length =
            parent.uf.rep.length
          rw [Srither.markCommonSideStep_length]; exact hq)
        (fun m hq =>
          Srither.markCommonSideStep_establishes s0 s1 m i Srither.PSide.In h0 h1
            (by rw [hq]; exact hki) (by rw [hq]; exact hk0))
        rfl (List.mem_range.mpr hi)
      exact main _ _ hki0 hk0 _ hestq.2 hestq.1
    · -- Fixed Out: the "same as outside" probe
      have hestq := foldl_establish
        (fun m => m.uf.find (Slither.key0 i)
          (Slither.key0 Srither.OUTSIDE_CELL_ID) = true)
        (fun m => m.uf.rep.length = parent.uf.rep.length)
        (Srither.markCommonSideStep s0 s1) (List.range cellLen) i parent
        (fun m x hq hp =>
          Srither.markCommonSideStep_find_mono s0 s1 m x _ _
            (by rw [hq]; exact hki0) (by rw [hq]; exact hk00) hp)
        (fun m x hq => by
          show (Srither.markCommonSideStep s0 s1 m x).uf.rep.length =
            parent.uf.rep.length
          rw [Srither.markCommonSideStep_length]; exact hq)
        (fun m hq =>
          Srither.markCommonSideStep_establishes s0 s1 m i Srither.PSide.Out h0 h1
            (by rw [hq]; exact hki) (by rw [hq]; exact hk0))
        rfl (List.mem_range.mpr hi)
      exact main _ _ hki0 hk00 _ hestq.2 hestq.1
  · -- consecutive-id edge agreements
    intro i e hi h0 h1
    rw [hmark]
    have hki : Slither.key1 i < parent.uf.rep.length := by
      simp only [Slither.key1]; omega
    have hki1 : Slither.key1 (i + 1) < parent.uf.rep.length := by
      simp only [Slither.key1]; omega
    have hki0 : Slither.key0 i < parent.uf.rep.length := by
      simp only [Slither.key0]; omega
    have hki10 : Slither.key0 (i + 1) < parent.uf.rep.length := by
      simp only [Slither.key0]; omega
    have hm1len : ((List.range cellLen).foldl (Srither.markCommonSideStep s0 s1)
        parent).uf.rep.length = parent.uf.rep.length :=
      Srither.foldl_sideStep_length s0 s1 _ parent
    cases e
    · -- Fixed Line: the "different" probe on the pair
      have hestq := foldl_establish
        (fun m => m.uf.find (Slither.key0 i) (Slither.key1 (i + 1)) = true)
        (fun m => m.uf.rep.length = parent.uf.rep.length)
        (Srither.markCommonEdgeStep s0 s1 1) (List.range (cellLen - 1)) i
        ((List.range cellLen).foldl (Srither.markCommonSideStep s0 s1) parent)
        (fun m x hq hp =>
          Srither.markCommonEdgeStep_find_mono s0 s1 1 m x _ _
            (by rw [hq]; exact hki0) (by rw [hq]; exact hki1) hp)
        (fun m x hq => by
          show (Srither.markCommonEdgeStep s0 s1 1 m x).uf.rep.length =
            parent.uf.rep.length
          rw [Srither.markCommonEdgeStep_length]; exact hq)
        (fun m hq =>
          Srither.markCommonEdgeStep_establishes s0 s1 1 m i Srither.Edge.Line h0 h1
            (by rw [hq]; exact hki) (by rw [hq]; exact hki1))
        hm1len (List.mem_range.mpr hi)
      exact (Srither.foldl_edgeStep_mono s0 s1 column (List.range (cellLen - column))
        _ _ _ (by rw [hestq.2]; exact hki0) (by rw [hestq.2]; exact hki1) hestq.1).1
    · -- Fixed Cross: the "same" probe on the pair
      have hestq := foldl_establish
        (fun m => m.uf.find (Slither.key0 i) (Slither.key0 (i + 1)) = true)
        (fun m => m.uf.rep.length = parent.uf.rep.length)
        (Srither.markCommonEdgeStep s0 s1 1) (List.range (cellLen - 1)) i
        ((List.range cellLen).foldl (Srither.markCommonSideStep s0 s1) parent)
        (fun m x hq hp =>
          Srither.markCommonEdgeStep_find_mono s0 s1 1 m x _ _
            (by rw [hq]; exact hki0) (by rw [hq]; exact hki10) hp)
        (fun m x hq => by
          show (Srither.markCommonEdgeStep s0 s1 1 m x).uf.rep.length =
            parent.uf.rep.length
          rw [Srither.markCommonEdgeStep_length]; exact hq)
        (fun m hq =>
          Srither.markCommonEdgeStep_establishes s0 s1 1 m i Srither.Edge.Cross h0 h1
            (by rw [hq]; exact hki) (by rw [hq]; exact hki1))
        hm1len (List.mem_range.mpr hi)
      exact (Srither.foldl_edgeStep_mono s0 s1 column (List.range (cellLen - column))
        _ _ _ (by rw [hestq.2]; exact hki0) (by rw [hestq.2]; exact hki10) hestq.1).1
  · -- column-offset edge agreements
    intro i e hi h0 h1
    rw [hmark]
    have hki : Slither.key1 i < parent.uf.rep.length := by
      simp only [Slither.key1]; omega
    have hkic : Slither.key1 (i + column) < parent.uf.rep.length := by
      simp only [Slither.key1]; omega
    have hki0 : Slither.key0 i < parent.uf.rep.length := by
      simp only [Slither.key0]; omega
    have hkic0 : Slither.key0 (i + column) < parent.uf.rep.length := by
      simp only [Slither.key0]; omega
    have hm2len : ((List.range (cellLen - 1)).foldl (Srither.markCommonEdgeStep s0 s1 1)
        ((List.range cellLen).foldl (Srither.markCommonSideStep s0 s1)
          parent)).uf.rep.length = parent.uf.rep.length := by
      rw [Srither.foldl_edgeStep_length, Srither.foldl_sideStep_length]
    cases e
    · have hestq := foldl_establish
        (fun m => m.uf.find (Slither.key0 i) (Slither.key1 (i + column)) = true)
        (fun m => m.uf.rep.length = parent.uf.rep.length)
        (Srither.markCommonEdgeStep s0 s1 column) (List.range (cellLen - column)) i
        ((List.range (cellLen - 1)).foldl (Srither.markCommonEdgeStep s0 s1 1)
          ((List.range cellLen).foldl (Srither.markCommonSideStep s0 s1) parent))
        (fun m x hq hp =>
          Srither.markCommonEdgeStep_find_mono s0 s1 column m x _ _
            (by rw [hq]; exact hki0) (by rw [hq]; exact hkic) hp)
        (fun m x hq => by
          show (Srither.markCommonEdgeStep s0 s1 column m x).uf.rep.length =
            parent.uf.rep.length
          rw [Srither.markCommonEdgeStep_length]; exact hq)
        (fun m hq =>
          Srither.markCommonEdgeStep_establishes s0 s1 column m i Srither.Edge.Line
            h0 h1 (by rw [hq]; exact hki) (by rw [hq]; exact hkic))
        hm2len (List.mem_range.mpr hi)
      exact hestq.1
    · have hestq := foldl_establish
        (fun m => m.uf.find (Slither.key0 i) (Slither.key0 (i + column)) = true)
        (fun m => m.uf.rep.length = parent.uf.rep.length)
        (Srither.markCommonEdgeStep s0 s1 column) (List.range (cellLen - column)) i
        ((List.range (cellLen - 1)).foldl (Srither.markCommonEdgeStep s0 s1 1)
          ((List.range cellLen).foldl (Srither.markCommonSideStep s0 s1) parent))
        (fun m x hq hp =>
          Srither.markCommonEdgeStep_find_mono s0 s1 column m x _ _
            (by rw [hq]; exact hki0) (by rw [hq]; exact hkic0) hp)
        (fun m x hq => by
          show (Srither.markCommonEdgeStep s0 s1 column m x).uf.rep.length =
            parent.uf.rep.length
          rw [Srither.markCommonEdgeStep_length]; exact hq)
        (fun m hq =>
          Srither.markCommonEdgeStep_establishes s0 s1 column m i Srither.Edge.Cross
            h0 h1 (by rw [hq]; exact hki) (by rw [hq]; exact hkic))
        hm2len (List.mem_range.mpr hi)
      exact hestq.1
  · -- no agreements: the parent is untouched
    intro hside hpair1 hpair2
    rw [hmark]
    have hstep1 : ∀ x ∈ List.range cellLen, ∀ m : Slither.SideMapInner,
        Srither.markCommonSideStep s0 s1 m x = m := by
      intro x hx m
      unfold Srither.markCommonSideStep
      split
      · next side heq =>
        rw [if_neg]
        intro h1c
        exact hside x (List.mem_range.mp hx) ⟨side, heq, h1c⟩
      · rfl
    have hstep2 : ∀ x ∈ List.range (cellLen - 1), ∀ m : Slither.SideMapInner,
        Srither.markCommonEdgeStep s0 s1 1 m x = m := by
      intro x hx m
      unfold Srither.markCommonEdgeStep
      split
      · next e heq =>
        rw [if_neg]
        intro h1c
        exact hpair1 x (List.mem_range.mp hx) ⟨e, heq, h1c⟩
      · rfl
    have hstep3 : ∀ x ∈ List.range (cellLen - column), ∀ m : Slither.SideMapInner,
        Srither.markCommonEdgeStep s0 s1 column m x = m := by
      intro x hx m
      unfold Srither.markCommonEdgeStep
      split
      · next e heq =>
        rw [if_neg]
        intro h1c
        exact hpair2 x (List.mem_range.mp hx) ⟨e, heq, h1c⟩
      · rfl
    rw [foldl_congr_id _ _ _ hstep3, foldl_congr_id _ _ _ hstep2,
      foldl_congr_id _ _ _ hstep1]

/-- Witness for C7 (amended): a branch agreement `In` on cell 1 of a
one-cell board is copied into the fresh parent. -/
theorem claim7_mark_common_copies_witness :
    Srither.sideHolds
      (Srither.markCommon 2 1 (Slither.SideMapInner.new 2)
        (Srither.setSideId (Slither.SideMapInner.new 2) 1 Srither.PSide.In).1
        (Srither.setSideId (Slither.SideMapInner.new 2) 1 Srither.PSide.In).1)
      1 Srither.PSide.In = true :=
  (claim7_mark_common_copies 2 1 (Slither.SideMapInner.new 2)
    (Srither.setSideId (Slither.SideMapInner.new 2) 1 Srither.PSide.In).1
    (Srither.setSideId (Slither.SideMapInner.new 2) 1 Srither.PSide.In).1
    (by decide)).1 1 Srither.PSide.In (by decide) (by decide) (by decide)
